import Mathlib

/-!
Shallow embedding of the libSEDML excerpt consisting of
SedComputeChange.cpp, SedPlot2D.cpp, SedError.h and SedNamespaces.h.

Heap-allocated child elements (SedVariable, SedParameter, SedCurve) and
math expression trees (ASTNode) are modelled by explicit stores indexed
by natural-number addresses, so that pointer identity, deep copying and
ownership transfer are all observable.  The container classes
SedComputeChange and SedPlot2D are themselves stored in heaps as well,
so that the parent back-link installed by connectToChild can refer to
the containing object by address.
-/

/-- Address into one of the stores of a `World`. -/
abbrev Addr := Nat

/-- Modelled from the spec: SedVariable, a child element type stored in
SedListOfVariables; it carries an optional string identifier used for
identifier-based lookup.  The class itself is not part of the excerpt. -/
structure SedVariable where
  sid : String
  deriving Repr, DecidableEq, Inhabited

/-- Modelled from the spec: SedParameter, a child element type stored in
SedListOfParameters.  The class itself is not part of the excerpt. -/
structure SedParameter where
  sid : String
  deriving Repr, DecidableEq, Inhabited

/-- Modelled from the spec: SedCurve, a child element type stored in
SedListOfCurves.  The class itself is not part of the excerpt. -/
structure SedCurve where
  sid : String
  deriving Repr, DecidableEq, Inhabited

/-- Modelled from the spec: the external expression tree (ASTNode of the
MathML toolkit).  The core treats it as an opaque owned value exposing a
well-formedness predicate and a deep-copy operation. -/
structure ASTNode where
  payload : Nat
  wellFormed : Bool
  deriving Repr, DecidableEq, Inhabited

/-- Modelled from the spec: the state of the superclass SedChange (not in
the excerpt), reduced to the schema revision selector it carries. -/
structure SedChange where
  level : Nat
  version : Nat
  deriving Repr, DecidableEq, Inhabited

/-- Modelled from the spec: the state of the superclass SedOutput (not in
the excerpt), reduced to the schema revision selector it carries. -/
structure SedOutput where
  level : Nat
  version : Nat
  deriving Repr, DecidableEq, Inhabited

/-- Modelled from the spec: SedListOfVariables, an ordered collection of
owned SedVariable elements (addresses into the variable store) together
with the non-owning back-link to the parent element installed by
connectToParent. -/
structure SedListOfVariables where
  items : List Addr
  parent : Option Addr
  deriving Repr, DecidableEq, Inhabited

/-- Modelled from the spec: SedListOfParameters. -/
structure SedListOfParameters where
  items : List Addr
  parent : Option Addr
  deriving Repr, DecidableEq, Inhabited

/-- Modelled from the spec: SedListOfCurves. -/
structure SedListOfCurves where
  items : List Addr
  parent : Option Addr
  deriving Repr, DecidableEq, Inhabited

/-- State of a SedComputeChange object: the superclass state, the two owned
child collections mVariable and mParameter, and the owned math pointer. -/
structure SedComputeChange where
  base : SedChange
  mVariable : SedListOfVariables
  mParameter : SedListOfParameters
  mMath : Option Addr
  deriving Repr, DecidableEq, Inhabited

/-- State of a SedPlot2D object: the superclass state and the owned child
collection mCurve. -/
structure SedPlot2D where
  base : SedOutput
  mCurve : SedListOfCurves
  deriving Repr, DecidableEq, Inhabited

/-- The heaps of all dynamically allocated objects; an address is an index
into the store of the corresponding type, allocation appends at the end. -/
structure World where
  vars : List SedVariable
  pars : List SedParameter
  curves : List SedCurve
  maths : List ASTNode
  ccs : List SedComputeChange
  plots : List SedPlot2D
  deriving Repr, DecidableEq, Inhabited

/-- Modelled from the spec: operation return code LIBSEDML_OPERATION_SUCCESS
(defined in a common header outside the excerpt). -/
def LIBSEDML_OPERATION_SUCCESS : Int := 0

/-- Modelled from the spec: operation return code LIBSEDML_OPERATION_FAILED. -/
def LIBSEDML_OPERATION_FAILED : Int := -3

/-- Modelled from the spec: operation return code
LIBSEDML_INVALID_ATTRIBUTE_VALUE. -/
def LIBSEDML_INVALID_ATTRIBUTE_VALUE : Int := -4

/-- Modelled from the spec: operation return code LIBSEDML_INVALID_OBJECT. -/
def LIBSEDML_INVALID_OBJECT : Int := -5

/-- Modelled from the spec: the libSBML constant LIBSBML_INVALID_OBJECT used
by some facade functions; it has the same numeric value as the libSEDML one. -/
def LIBSBML_INVALID_OBJECT : Int := -5

/-- Modelled from the spec: the maximum-integer sentinel SEDML_INT_MAX
returned by count accessors of the C facade on a null handle. -/
def SEDML_INT_MAX : Nat := 2147483647

/-- Exception thrown by copy constructors and assignment operators on a null
source reference. -/
structure SedConstructorException where
  message : String
  deriving Repr, DecidableEq, Inhabited

/-- Dereference a list of addresses in a store; a dangling address yields the
default element (such an access never happens on well-formed states). -/
def derefList {α : Type} [Inhabited α] (heap : List α) (ps : List Addr) : List α :=
  ps.map fun p => (heap[p]?).getD default

/-- Modelled from the spec: copying a SedListOf collection deep-copies every
contained element, allocating a fresh cell holding the value of each source
element, in order.  Returns the grown store and the fresh addresses. -/
def copyItems {α : Type} [Inhabited α] (heap : List α) (ps : List Addr) :
    List α × List Addr :=
  match ps with
  | [] => (heap, [])
  | p :: rest =>
      let q := heap.length
      let step := copyItems (heap ++ [(heap[p]?).getD default]) rest
      (step.1, q :: step.2)

/-- Deep copy of the optional math pointer, as performed by
mMath = orig.mMath != NULL ? orig.mMath->deepCopy() : NULL. -/
def copyMath (heap : List ASTNode) (m : Option Addr) : List ASTNode × Option Addr :=
  match m with
  | none => (heap, none)
  | some p => (heap ++ [(heap[p]?).getD default], some heap.length)

/-- SedComputeChange::connectToChild: re-links both owned child collections
to the containing object (given here by its address). -/
def SedComputeChange.connectToChild (cc : SedComputeChange) (self : Addr) :
    SedComputeChange :=
  { cc with
    mVariable := { cc.mVariable with parent := some self }
    mParameter := { cc.mParameter with parent := some self } }

/-- SedComputeChange::SedComputeChange(unsigned int level, unsigned int
version): builds an object with empty collections and no math, then calls
connectToChild; allocated in the ccs store. -/
def SedComputeChange.ctor (w : World) (level version : Nat) : World × Addr :=
  let a := w.ccs.length
  let cc := SedComputeChange.connectToChild
    { base := { level := level, version := version }
      mVariable := { items := [], parent := none }
      mParameter := { items := [], parent := none }
      mMath := none } a
  ({ w with ccs := w.ccs ++ [cc] }, a)

/-- Body of the copy constructor of SedComputeChange on a non-null source:
copies the superclass state, deep-copies both child collections and the math
tree, then calls connectToChild on the freshly allocated object. -/
def SedComputeChange.copyFrom (w : World) (orig : SedComputeChange) : World × Addr :=
  let v := copyItems w.vars orig.mVariable.items
  let p := copyItems w.pars orig.mParameter.items
  let m := copyMath w.maths orig.mMath
  let a := w.ccs.length
  let cc := SedComputeChange.connectToChild
    { base := orig.base
      mVariable := { items := v.2, parent := none }
      mParameter := { items := p.2, parent := none }
      mMath := m.2 } a
  ({ w with vars := v.1, pars := p.1, maths := m.1, ccs := w.ccs ++ [cc] }, a)

/-- SedComputeChange::SedComputeChange(const SedComputeChange@) : throws
SedConstructorException when the source reference is null, otherwise
performs the deep copy. -/
def SedComputeChange.copyCtor (w : World) (orig : Option SedComputeChange) :
    World × Except SedConstructorException Addr :=
  match orig with
  | none => (w, Except.error { message := "Null argument to copy constructor" })
  | some cc =>
      let r := SedComputeChange.copyFrom w cc
      (r.1, Except.ok r.2)

/-- SedComputeChange::operator= : throws on a null source, is a no-op on
self-assignment, and otherwise deep-copies the source collections and math
into the target object and calls connectToChild. -/
def SedComputeChange.operatorAssign (w : World) (self : Addr) (rhs : Option Addr) :
    World × Except SedConstructorException Unit :=
  match rhs with
  | none => (w, Except.error { message := "Null argument to assignment" })
  | some r =>
      if r = self then (w, Except.ok ())
      else
        let orig := (w.ccs[r]?).getD default
        let v := copyItems w.vars orig.mVariable.items
        let p := copyItems w.pars orig.mParameter.items
        let m := copyMath w.maths orig.mMath
        let cc := SedComputeChange.connectToChild
          { base := orig.base
            mVariable := { items := v.2, parent := none }
            mParameter := { items := p.2, parent := none }
            mMath := m.2 } self
        ({ w with vars := v.1, pars := p.1, maths := m.1, ccs := w.ccs.set self cc },
         Except.ok ())

/-- SedComputeChange::clone: new SedComputeChange(*this), the copy
constructor applied to the (non-null) object itself. -/
def SedComputeChange.clone (w : World) (cc : SedComputeChange) : World × Addr :=
  SedComputeChange.copyFrom w cc

/-- SedComputeChange::getMath. -/
def SedComputeChange.getMath (cc : SedComputeChange) : Option Addr := cc.mMath

/-- SedComputeChange::isSetMath. -/
def SedComputeChange.isSetMath (cc : SedComputeChange) : Bool := cc.mMath.isSome

/-- SedComputeChange::setMath: succeeds at once on pointer-equal input,
clears the math on a null input, rejects an ill-formed tree with
LIBSEDML_INVALID_OBJECT without mutating, and otherwise stores a deep copy. -/
def SedComputeChange.setMath (w : World) (cc : SedComputeChange) (math : Option Addr) :
    World × SedComputeChange × Int :=
  if cc.mMath = math then (w, cc, LIBSEDML_OPERATION_SUCCESS)
  else
    match math with
    | none => (w, { cc with mMath := none }, LIBSEDML_OPERATION_SUCCESS)
    | some p =>
        if ((w.maths[p]?).getD default).wellFormed = false then
          (w, cc, LIBSEDML_INVALID_OBJECT)
        else
          ({ w with maths := w.maths ++ [(w.maths[p]?).getD default] },
           { cc with mMath := some w.maths.length }, LIBSEDML_OPERATION_SUCCESS)

/-- SedComputeChange::unsetMath. -/
def SedComputeChange.unsetMath (w : World) (cc : SedComputeChange) :
    World × SedComputeChange × Int :=
  (w, { cc with mMath := none }, LIBSEDML_OPERATION_SUCCESS)

/-- SedComputeChange::getNumVariables, via mVariable.size(). -/
def SedComputeChange.getNumVariables (cc : SedComputeChange) : Nat :=
  cc.mVariable.items.length

/-- SedComputeChange::getNumParameters, via mParameter.size(). -/
def SedComputeChange.getNumParameters (cc : SedComputeChange) : Nat :=
  cc.mParameter.items.length

/-- Modelled from the spec: SedListOf append copies the given element and
stores the copy at the end (a fresh cell holding the value of the source). -/
def SedListOfVariables.append (w : World) (l : SedListOfVariables) (p : Addr) :
    World × SedListOfVariables :=
  ({ w with vars := w.vars ++ [(w.vars[p]?).getD default] },
   { l with items := l.items ++ [w.vars.length] })

/-- Modelled from the spec: SedListOf appendAndOwn transfers ownership of an
already constructed element, storing the given address itself. -/
def SedListOfVariables.appendAndOwn (l : SedListOfVariables) (p : Addr) :
    SedListOfVariables :=
  { l with items := l.items ++ [p] }

/-- Modelled from the spec: positional get of a SedListOf returns the stored
element lookup result, null when the index is out of range. -/
def SedListOfVariables.get (l : SedListOfVariables) (n : Nat) : Option Addr :=
  l.items[n]?

/-- Modelled from the spec: identifier lookup is a linear scan returning the
first element carrying the identifier. -/
def SedListOfVariables.getById (w : World) (l : SedListOfVariables) (sid : String) :
    Option Addr :=
  l.items.find? fun p => ((w.vars[p]?).getD default).sid == sid

/-- Modelled from the spec: positional remove detaches the element, returning
ownership to the caller. -/
def SedListOfVariables.remove (l : SedListOfVariables) (n : Nat) :
    SedListOfVariables × Option Addr :=
  ({ l with items := l.items.eraseIdx n }, l.items[n]?)

/-- Modelled from the spec: SedListOfParameters append. -/
def SedListOfParameters.append (w : World) (l : SedListOfParameters) (p : Addr) :
    World × SedListOfParameters :=
  ({ w with pars := w.pars ++ [(w.pars[p]?).getD default] },
   { l with items := l.items ++ [w.pars.length] })

/-- Modelled from the spec: SedListOfParameters appendAndOwn. -/
def SedListOfParameters.appendAndOwn (l : SedListOfParameters) (p : Addr) :
    SedListOfParameters :=
  { l with items := l.items ++ [p] }

/-- Modelled from the spec: SedListOfParameters positional get. -/
def SedListOfParameters.get (l : SedListOfParameters) (n : Nat) : Option Addr :=
  l.items[n]?

/-- Modelled from the spec: SedListOfParameters identifier lookup. -/
def SedListOfParameters.getById (w : World) (l : SedListOfParameters) (sid : String) :
    Option Addr :=
  l.items.find? fun p => ((w.pars[p]?).getD default).sid == sid

/-- Modelled from the spec: SedListOfParameters positional remove. -/
def SedListOfParameters.remove (l : SedListOfParameters) (n : Nat) :
    SedListOfParameters × Option Addr :=
  ({ l with items := l.items.eraseIdx n }, l.items[n]?)

/-- Modelled from the spec: SedListOfCurves append. -/
def SedListOfCurves.append (w : World) (l : SedListOfCurves) (p : Addr) :
    World × SedListOfCurves :=
  ({ w with curves := w.curves ++ [(w.curves[p]?).getD default] },
   { l with items := l.items ++ [w.curves.length] })

/-- Modelled from the spec: SedListOfCurves appendAndOwn. -/
def SedListOfCurves.appendAndOwn (l : SedListOfCurves) (p : Addr) :
    SedListOfCurves :=
  { l with items := l.items ++ [p] }

/-- Modelled from the spec: SedListOfCurves positional get. -/
def SedListOfCurves.get (l : SedListOfCurves) (n : Nat) : Option Addr :=
  l.items[n]?

/-- Modelled from the spec: SedListOfCurves identifier lookup. -/
def SedListOfCurves.getById (w : World) (l : SedListOfCurves) (sid : String) :
    Option Addr :=
  l.items.find? fun p => ((w.curves[p]?).getD default).sid == sid

/-- Modelled from the spec: SedListOfCurves positional remove. -/
def SedListOfCurves.remove (l : SedListOfCurves) (n : Nat) :
    SedListOfCurves × Option Addr :=
  ({ l with items := l.items.eraseIdx n }, l.items[n]?)

/-- SedComputeChange::addVariable: rejects a null argument with
LIBSEDML_INVALID_ATTRIBUTE_VALUE, otherwise appends a copy via
mVariable.append and reports LIBSEDML_OPERATION_SUCCESS. -/
def SedComputeChange.addVariable (w : World) (cc : SedComputeChange)
    (sv : Option Addr) : World × SedComputeChange × Int :=
  match sv with
  | none => (w, cc, LIBSEDML_INVALID_ATTRIBUTE_VALUE)
  | some p =>
      let r := SedListOfVariables.append w cc.mVariable p
      (r.1, { cc with mVariable := r.2 }, LIBSEDML_OPERATION_SUCCESS)

/-- SedComputeChange::createVariable: allocates a fresh default-constructed
SedVariable, transfers it into mVariable via appendAndOwn, and returns the
address of the stored element itself. -/
def SedComputeChange.createVariable (w : World) (cc : SedComputeChange) :
    World × SedComputeChange × Addr :=
  let q := w.vars.length
  ({ w with vars := w.vars ++ [default] },
   { cc with mVariable := SedListOfVariables.appendAndOwn cc.mVariable q }, q)

/-- SedComputeChange::getVariable(n). -/
def SedComputeChange.getVariable (cc : SedComputeChange) (n : Nat) : Option Addr :=
  SedListOfVariables.get cc.mVariable n

/-- SedComputeChange::getVariable(sid). -/
def SedComputeChange.getVariableById (w : World) (cc : SedComputeChange)
    (sid : String) : Option Addr :=
  SedListOfVariables.getById w cc.mVariable sid

/-- SedComputeChange::removeVariable(n). -/
def SedComputeChange.removeVariable (cc : SedComputeChange) (n : Nat) :
    SedComputeChange × Option Addr :=
  let r := SedListOfVariables.remove cc.mVariable n
  ({ cc with mVariable := r.1 }, r.2)

/-- SedComputeChange::addParameter. -/
def SedComputeChange.addParameter (w : World) (cc : SedComputeChange)
    (sp : Option Addr) : World × SedComputeChange × Int :=
  match sp with
  | none => (w, cc, LIBSEDML_INVALID_ATTRIBUTE_VALUE)
  | some p =>
      let r := SedListOfParameters.append w cc.mParameter p
      (r.1, { cc with mParameter := r.2 }, LIBSEDML_OPERATION_SUCCESS)

/-- SedComputeChange::createParameter. -/
def SedComputeChange.createParameter (w : World) (cc : SedComputeChange) :
    World × SedComputeChange × Addr :=
  let q := w.pars.length
  ({ w with pars := w.pars ++ [default] },
   { cc with mParameter := SedListOfParameters.appendAndOwn cc.mParameter q }, q)

/-- SedComputeChange::getParameter(n). -/
def SedComputeChange.getParameter (cc : SedComputeChange) (n : Nat) : Option Addr :=
  SedListOfParameters.get cc.mParameter n

/-- SedComputeChange::getParameter(sid). -/
def SedComputeChange.getParameterById (w : World) (cc : SedComputeChange)
    (sid : String) : Option Addr :=
  SedListOfParameters.getById w cc.mParameter sid

/-- SedComputeChange::removeParameter(n). -/
def SedComputeChange.removeParameter (cc : SedComputeChange) (n : Nat) :
    SedComputeChange × Option Addr :=
  let r := SedListOfParameters.remove cc.mParameter n
  ({ cc with mParameter := r.1 }, r.2)

/-- SedComputeChange::hasRequiredAttributes defers entirely to the
superclass predicate, which is outside the excerpt and therefore passed in. -/
def SedComputeChange.hasRequiredAttributes (baseHas : SedChange → Bool)
    (cc : SedComputeChange) : Bool :=
  baseHas cc.base

/-- SedComputeChange::hasRequiredElements defers entirely to the superclass
predicate. -/
def SedComputeChange.hasRequiredElements (baseHas : SedChange → Bool)
    (cc : SedComputeChange) : Bool :=
  baseHas cc.base

/-- SedPlot2D::connectToChild: re-links mCurve to the containing object. -/
def SedPlot2D.connectToChild (pl : SedPlot2D) (self : Addr) : SedPlot2D :=
  { pl with mCurve := { pl.mCurve with parent := some self } }

/-- SedPlot2D::SedPlot2D(unsigned int level, unsigned int version). -/
def SedPlot2D.ctor (w : World) (level version : Nat) : World × Addr :=
  let a := w.plots.length
  let pl := SedPlot2D.connectToChild
    { base := { level := level, version := version }
      mCurve := { items := [], parent := none } } a
  ({ w with plots := w.plots ++ [pl] }, a)

/-- Body of the copy constructor of SedPlot2D on a non-null source. -/
def SedPlot2D.copyFrom (w : World) (orig : SedPlot2D) : World × Addr :=
  let c := copyItems w.curves orig.mCurve.items
  let a := w.plots.length
  let pl := SedPlot2D.connectToChild
    { base := orig.base
      mCurve := { items := c.2, parent := none } } a
  ({ w with curves := c.1, plots := w.plots ++ [pl] }, a)

/-- SedPlot2D::SedPlot2D(const SedPlot2D@) : throws on a null source,
otherwise deep-copies. -/
def SedPlot2D.copyCtor (w : World) (orig : Option SedPlot2D) :
    World × Except SedConstructorException Addr :=
  match orig with
  | none => (w, Except.error { message := "Null argument to copy constructor" })
  | some pl =>
      let r := SedPlot2D.copyFrom w pl
      (r.1, Except.ok r.2)

/-- SedPlot2D::operator= : throws on a null source, no-op on
self-assignment, otherwise deep-copies into the target and reconnects. -/
def SedPlot2D.operatorAssign (w : World) (self : Addr) (rhs : Option Addr) :
    World × Except SedConstructorException Unit :=
  match rhs with
  | none => (w, Except.error { message := "Null argument to assignment" })
  | some r =>
      if r = self then (w, Except.ok ())
      else
        let orig := (w.plots[r]?).getD default
        let c := copyItems w.curves orig.mCurve.items
        let pl := SedPlot2D.connectToChild
          { base := orig.base
            mCurve := { items := c.2, parent := none } } self
        ({ w with curves := c.1, plots := w.plots.set self pl }, Except.ok ())

/-- SedPlot2D::clone: new SedPlot2D(*this). -/
def SedPlot2D.clone (w : World) (pl : SedPlot2D) : World × Addr :=
  SedPlot2D.copyFrom w pl

/-- SedPlot2D::getNumCurves, via mCurve.size(). -/
def SedPlot2D.getNumCurves (pl : SedPlot2D) : Nat :=
  pl.mCurve.items.length

/-- SedPlot2D::addCurve. -/
def SedPlot2D.addCurve (w : World) (pl : SedPlot2D) (sc : Option Addr) :
    World × SedPlot2D × Int :=
  match sc with
  | none => (w, pl, LIBSEDML_INVALID_ATTRIBUTE_VALUE)
  | some p =>
      let r := SedListOfCurves.append w pl.mCurve p
      (r.1, { pl with mCurve := r.2 }, LIBSEDML_OPERATION_SUCCESS)

/-- SedPlot2D::createCurve. -/
def SedPlot2D.createCurve (w : World) (pl : SedPlot2D) :
    World × SedPlot2D × Addr :=
  let q := w.curves.length
  ({ w with curves := w.curves ++ [default] },
   { pl with mCurve := SedListOfCurves.appendAndOwn pl.mCurve q }, q)

/-- SedPlot2D::getCurve(n). -/
def SedPlot2D.getCurve (pl : SedPlot2D) (n : Nat) : Option Addr :=
  SedListOfCurves.get pl.mCurve n

/-- SedPlot2D::getCurve(sid). -/
def SedPlot2D.getCurveById (w : World) (pl : SedPlot2D) (sid : String) :
    Option Addr :=
  SedListOfCurves.getById w pl.mCurve sid

/-- SedPlot2D::removeCurve(n). -/
def SedPlot2D.removeCurve (pl : SedPlot2D) (n : Nat) : SedPlot2D × Option Addr :=
  let r := SedListOfCurves.remove pl.mCurve n
  ({ pl with mCurve := r.1 }, r.2)

/-- SedPlot2D::hasRequiredAttributes defers to the superclass predicate. -/
def SedPlot2D.hasRequiredAttributes (baseHas : SedOutput → Bool)
    (pl : SedPlot2D) : Bool :=
  baseHas pl.base

/-- SedPlot2D::hasRequiredElements defers to the superclass predicate. -/
def SedPlot2D.hasRequiredElements (baseHas : SedOutput → Bool)
    (pl : SedPlot2D) : Bool :=
  baseHas pl.base

/-- Output token model for writeElements: one token per emitted element.
Superclass output is represented by arbitrary tokens supplied by the caller,
each owned collection serializes to a single wrapper token carrying its
contained element values in order, and MathML output is one token carrying
the tree value. -/
inductive XMLNode where
  | other (tag : String) : XMLNode
  | listOfVariables (elems : List SedVariable) : XMLNode
  | listOfParameters (elems : List SedParameter) : XMLNode
  | listOfCurves (elems : List SedCurve) : XMLNode
  | mathML (m : ASTNode) : XMLNode
  deriving Repr, DecidableEq

/-- Modelled from the spec: SedListOfVariables::write emits the wrapper
element followed by each contained element in insertion order. -/
def SedListOfVariables.write (w : World) (l : SedListOfVariables) : XMLNode :=
  XMLNode.listOfVariables (derefList w.vars l.items)

/-- Modelled from the spec: SedListOfParameters::write. -/
def SedListOfParameters.write (w : World) (l : SedListOfParameters) : XMLNode :=
  XMLNode.listOfParameters (derefList w.pars l.items)

/-- Modelled from the spec: SedListOfCurves::write. -/
def SedListOfCurves.write (w : World) (l : SedListOfCurves) : XMLNode :=
  XMLNode.listOfCurves (derefList w.curves l.items)

/-- SedComputeChange::writeElements: superclass elements first (passed in as
superOut, since SedChange is outside the excerpt), then the listOfVariables
wrapper when non-empty, then the listOfParameters wrapper when non-empty,
then the MathML element when the math is set. -/
def SedComputeChange.writeElements (w : World) (cc : SedComputeChange)
    (superOut : List XMLNode) : List XMLNode :=
  superOut
    ++ (if 0 < SedComputeChange.getNumVariables cc then
          [SedListOfVariables.write w cc.mVariable] else [])
    ++ (if 0 < SedComputeChange.getNumParameters cc then
          [SedListOfParameters.write w cc.mParameter] else [])
    ++ (if SedComputeChange.isSetMath cc then
          [XMLNode.mathML ((cc.mMath.map fun p => (w.maths[p]?).getD default).getD default)]
        else [])

/-- SedPlot2D::writeElements: superclass elements first, then the
listOfCurves wrapper when non-empty. -/
def SedPlot2D.writeElements (w : World) (pl : SedPlot2D)
    (superOut : List XMLNode) : List XMLNode :=
  superOut
    ++ (if 0 < SedPlot2D.getNumCurves pl then
          [SedListOfCurves.write w pl.mCurve] else [])

/-- Input stream model for readOtherXML: the name revealed by peek, and the
tree the external MathML reader would produce at this position (none models
readMathML returning null). -/
structure XMLInputStream where
  peekName : String
  mathResult : Option ASTNode
  deriving Repr, DecidableEq, Inhabited

/-- SedComputeChange::readOtherXML: when the peeked tag is math, the old
tree is deleted and the freshly read tree stored, setting the local read
flag; afterwards the superclass handler (outside the excerpt, passed in) is
invoked unconditionally, and the two flags are combined with OR. -/
def SedComputeChange.readOtherXML
    (superRead : SedChange → XMLInputStream → SedChange × Bool)
    (w : World) (cc : SedComputeChange) (stream : XMLInputStream) :
    World × SedComputeChange × Bool :=
  let step :=
    if stream.peekName = "math" then
      match stream.mathResult with
      | none => (w, { cc with mMath := none }, true)
      | some m =>
          ({ w with maths := w.maths ++ [m] },
           { cc with mMath := some w.maths.length }, true)
    else (w, cc, false)
  let sup := superRead step.2.1.base stream
  (step.1, { step.2.1 with base := sup.1 }, step.2.2 || sup.2)

/-- Read a SedComputeChange object from its store, default on a dangling
address. -/
def World.getCC (w : World) (a : Addr) : SedComputeChange :=
  (w.ccs[a]?).getD default

/-- Write back a SedComputeChange object. -/
def World.setCC (w : World) (a : Addr) (cc : SedComputeChange) : World :=
  { w with ccs := w.ccs.set a cc }

/-- Read a SedPlot2D object from its store. -/
def World.getPlot (w : World) (a : Addr) : SedPlot2D :=
  (w.plots[a]?).getD default

/-- Write back a SedPlot2D object. -/
def World.setPlot (w : World) (a : Addr) (pl : SedPlot2D) : World :=
  { w with plots := w.plots.set a pl }

/-- C facade SedComputeChange_clone: NULL in, NULL out. -/
def SedComputeChange_clone (w : World) (scc : Option Addr) : World × Option Addr :=
  match scc with
  | none => (w, none)
  | some a =>
      let r := SedComputeChange.clone w (w.getCC a)
      (r.1, some r.2)

/-- C facade SedComputeChange_getMath. -/
def SedComputeChange_getMath (w : World) (scc : Option Addr) : Option Addr :=
  match scc with
  | none => none
  | some a => SedComputeChange.getMath (w.getCC a)

/-- C facade SedComputeChange_isSetMath: 0 on a null handle. -/
def SedComputeChange_isSetMath (w : World) (scc : Option Addr) : Int :=
  match scc with
  | none => 0
  | some a => if SedComputeChange.isSetMath (w.getCC a) then 1 else 0

/-- C facade SedComputeChange_setMath: LIBSEDML_INVALID_OBJECT on a null
handle. -/
def SedComputeChange_setMath (w : World) (scc : Option Addr) (math : Option Addr) :
    World × Int :=
  match scc with
  | none => (w, LIBSEDML_INVALID_OBJECT)
  | some a =>
      let r := SedComputeChange.setMath w (w.getCC a) math
      (World.setCC r.1 a r.2.1, r.2.2)

/-- C facade SedComputeChange_unsetMath: LIBSEDML_INVALID_OBJECT on a null
handle. -/
def SedComputeChange_unsetMath (w : World) (scc : Option Addr) : World × Int :=
  match scc with
  | none => (w, LIBSEDML_INVALID_OBJECT)
  | some a =>
      let r := SedComputeChange.unsetMath w (w.getCC a)
      (World.setCC r.1 a r.2.1, r.2.2)

/-- C facade SedComputeChange_addVariable: LIBSBML_INVALID_OBJECT on a null
handle. -/
def SedComputeChange_addVariable (w : World) (scc : Option Addr) (sv : Option Addr) :
    World × Int :=
  match scc with
  | none => (w, LIBSBML_INVALID_OBJECT)
  | some a =>
      let r := SedComputeChange.addVariable w (w.getCC a) sv
      (World.setCC r.1 a r.2.1, r.2.2)

/-- C facade SedComputeChange_createVariable: NULL on a null handle. -/
def SedComputeChange_createVariable (w : World) (scc : Option Addr) :
    World × Option Addr :=
  match scc with
  | none => (w, none)
  | some a =>
      let r := SedComputeChange.createVariable w (w.getCC a)
      (World.setCC r.1 a r.2.1, some r.2.2)

/-- C facade SedComputeChange_getSedListOfVariables: NULL on a null handle. -/
def SedComputeChange_getSedListOfVariables (w : World) (scc : Option Addr) :
    Option SedListOfVariables :=
  match scc with
  | none => none
  | some a => some (w.getCC a).mVariable

/-- C facade SedComputeChange_getVariable: NULL on a null handle. -/
def SedComputeChange_getVariable (w : World) (scc : Option Addr) (n : Nat) :
    Option Addr :=
  match scc with
  | none => none
  | some a => SedComputeChange.getVariable (w.getCC a) n

/-- C facade SedComputeChange_getVariableById: NULL on a null handle. -/
def SedComputeChange_getVariableById (w : World) (scc : Option Addr) (sid : String) :
    Option Addr :=
  match scc with
  | none => none
  | some a => SedComputeChange.getVariableById w (w.getCC a) sid

/-- C facade SedComputeChange_getNumVariables: SEDML_INT_MAX on a null
handle. -/
def SedComputeChange_getNumVariables (w : World) (scc : Option Addr) : Nat :=
  match scc with
  | none => SEDML_INT_MAX
  | some a => SedComputeChange.getNumVariables (w.getCC a)

/-- C facade SedComputeChange_removeVariable: NULL on a null handle. -/
def SedComputeChange_removeVariable (w : World) (scc : Option Addr) (n : Nat) :
    World × Option Addr :=
  match scc with
  | none => (w, none)
  | some a =>
      let r := SedComputeChange.removeVariable (w.getCC a) n
      (World.setCC w a r.1, r.2)

/-- C facade SedComputeChange_addParameter: LIBSBML_INVALID_OBJECT on a null
handle. -/
def SedComputeChange_addParameter (w : World) (scc : Option Addr) (sp : Option Addr) :
    World × Int :=
  match scc with
  | none => (w, LIBSBML_INVALID_OBJECT)
  | some a =>
      let r := SedComputeChange.addParameter w (w.getCC a) sp
      (World.setCC r.1 a r.2.1, r.2.2)

/-- C facade SedComputeChange_createParameter: NULL on a null handle. -/
def SedComputeChange_createParameter (w : World) (scc : Option Addr) :
    World × Option Addr :=
  match scc with
  | none => (w, none)
  | some a =>
      let r := SedComputeChange.createParameter w (w.getCC a)
      (World.setCC r.1 a r.2.1, some r.2.2)

/-- C facade SedComputeChange_getSedListOfParameters: NULL on a null handle. -/
def SedComputeChange_getSedListOfParameters (w : World) (scc : Option Addr) :
    Option SedListOfParameters :=
  match scc with
  | none => none
  | some a => some (w.getCC a).mParameter

/-- C facade SedComputeChange_getParameter: NULL on a null handle. -/
def SedComputeChange_getParameter (w : World) (scc : Option Addr) (n : Nat) :
    Option Addr :=
  match scc with
  | none => none
  | some a => SedComputeChange.getParameter (w.getCC a) n

/-- C facade SedComputeChange_getParameterById: NULL on a null handle. -/
def SedComputeChange_getParameterById (w : World) (scc : Option Addr) (sid : String) :
    Option Addr :=
  match scc with
  | none => none
  | some a => SedComputeChange.getParameterById w (w.getCC a) sid

/-- C facade SedComputeChange_getNumParameters: SEDML_INT_MAX on a null
handle. -/
def SedComputeChange_getNumParameters (w : World) (scc : Option Addr) : Nat :=
  match scc with
  | none => SEDML_INT_MAX
  | some a => SedComputeChange.getNumParameters (w.getCC a)

/-- C facade SedComputeChange_removeParameter: NULL on a null handle. -/
def SedComputeChange_removeParameter (w : World) (scc : Option Addr) (n : Nat) :
    World × Option Addr :=
  match scc with
  | none => (w, none)
  | some a =>
      let r := SedComputeChange.removeParameter (w.getCC a) n
      (World.setCC w a r.1, r.2)

/-- C facade SedComputeChange_hasRequiredAttributes: 0 on a null handle. -/
def SedComputeChange_hasRequiredAttributes (baseHas : SedChange → Bool)
    (w : World) (scc : Option Addr) : Int :=
  match scc with
  | none => 0
  | some a => if SedComputeChange.hasRequiredAttributes baseHas (w.getCC a) then 1 else 0

/-- C facade SedComputeChange_hasRequiredElements: 0 on a null handle. -/
def SedComputeChange_hasRequiredElements (baseHas : SedChange → Bool)
    (w : World) (scc : Option Addr) : Int :=
  match scc with
  | none => 0
  | some a => if SedComputeChange.hasRequiredElements baseHas (w.getCC a) then 1 else 0

/-- C facade SedPlot2D_clone: NULL in, NULL out. -/
def SedPlot2D_clone (w : World) (spd : Option Addr) : World × Option Addr :=
  match spd with
  | none => (w, none)
  | some a =>
      let r := SedPlot2D.clone w (w.getPlot a)
      (r.1, some r.2)

/-- C facade SedPlot2D_addCurve: LIBSBML_INVALID_OBJECT on a null handle. -/
def SedPlot2D_addCurve (w : World) (spd : Option Addr) (sc : Option Addr) :
    World × Int :=
  match spd with
  | none => (w, LIBSBML_INVALID_OBJECT)
  | some a =>
      let r := SedPlot2D.addCurve w (w.getPlot a) sc
      (World.setPlot r.1 a r.2.1, r.2.2)

/-- C facade SedPlot2D_createCurve: NULL on a null handle. -/
def SedPlot2D_createCurve (w : World) (spd : Option Addr) : World × Option Addr :=
  match spd with
  | none => (w, none)
  | some a =>
      let r := SedPlot2D.createCurve w (w.getPlot a)
      (World.setPlot r.1 a r.2.1, some r.2.2)

/-- C facade SedPlot2D_getSedListOfCurves: NULL on a null handle. -/
def SedPlot2D_getSedListOfCurves (w : World) (spd : Option Addr) :
    Option SedListOfCurves :=
  match spd with
  | none => none
  | some a => some (w.getPlot a).mCurve

/-- C facade SedPlot2D_getCurve: NULL on a null handle. -/
def SedPlot2D_getCurve (w : World) (spd : Option Addr) (n : Nat) : Option Addr :=
  match spd with
  | none => none
  | some a => SedPlot2D.getCurve (w.getPlot a) n

/-- C facade SedPlot2D_getCurveById: NULL on a null handle. -/
def SedPlot2D_getCurveById (w : World) (spd : Option Addr) (sid : String) :
    Option Addr :=
  match spd with
  | none => none
  | some a => SedPlot2D.getCurveById w (w.getPlot a) sid

/-- C facade SedPlot2D_getNumCurves: SEDML_INT_MAX on a null handle. -/
def SedPlot2D_getNumCurves (w : World) (spd : Option Addr) : Nat :=
  match spd with
  | none => SEDML_INT_MAX
  | some a => SedPlot2D.getNumCurves (w.getPlot a)

/-- C facade SedPlot2D_removeCurve: NULL on a null handle. -/
def SedPlot2D_removeCurve (w : World) (spd : Option Addr) (n : Nat) :
    World × Option Addr :=
  match spd with
  | none => (w, none)
  | some a =>
      let r := SedPlot2D.removeCurve (w.getPlot a) n
      (World.setPlot w a r.1, r.2)

/-- C facade SedPlot2D_hasRequiredAttributes: 0 on a null handle. -/
def SedPlot2D_hasRequiredAttributes (baseHas : SedOutput → Bool)
    (w : World) (spd : Option Addr) : Int :=
  match spd with
  | none => 0
  | some a => if SedPlot2D.hasRequiredAttributes baseHas (w.getPlot a) then 1 else 0

/-- C facade SedPlot2D_hasRequiredElements: 0 on a null handle. -/
def SedPlot2D_hasRequiredElements (baseHas : SedOutput → Bool)
    (w : World) (spd : Option Addr) : Int :=
  match spd with
  | none => 0
  | some a => if SedPlot2D.hasRequiredElements baseHas (w.getPlot a) then 1 else 0

/-- Transcription of the SedErrorCode_t enumeration of SedError.h: every
enumerator name in declaration order, paired with its numeric value. -/
def sedErrorCodeValues : List (String × Nat) := [
  ("UnknownError", 10000),
  ("NotUTF8", 10101),
  ("UnrecognizedElement", 10102),
  ("NotSchemaConformant", 10103),
  ("L3NotSchemaConformant", 10104),
  ("InvalidMathElement", 10201),
  ("DisallowedMathMLSymbol", 10202),
  ("DisallowedMathMLEncodingUse", 10203),
  ("DisallowedDefinitionURLUse", 10204),
  ("BadCsymbolDefinitionURLValue", 10205),
  ("DisallowedMathTypeAttributeUse", 10206),
  ("DisallowedMathTypeAttributeValue", 10207),
  ("LambdaOnlyAllowedInFunctionDef", 10208),
  ("BooleanOpsNeedBooleanArgs", 10209),
  ("NumericOpsNeedNumericArgs", 10210),
  ("ArgsToEqNeedSameType", 10211),
  ("PiecewiseNeedsConsistentTypes", 10212),
  ("PieceNeedsBoolean", 10213),
  ("ApplyCiMustBeUserFunction", 10214),
  ("ApplyCiMustBeModelComponent", 10215),
  ("KineticLawParametersAreLocalOnly", 10216),
  ("MathResultMustBeNumeric", 10217),
  ("OpsNeedCorrectNumberOfArgs", 10218),
  ("InvalidNoArgsPassedToFunctionDef", 10219),
  ("DisallowedMathUnitsUse", 10220),
  ("InvalidUnitsValue", 10221),
  ("DuplicateComponentId", 10301),
  ("DuplicateUnitDefinitionId", 10302),
  ("DuplicateLocalParameterId", 10303),
  ("MultipleAssignmentOrRateRules", 10304),
  ("MultipleEventAssignmentsForId", 10305),
  ("EventAndAssignmentRuleForId", 10306),
  ("DuplicateMetaId", 10307),
  ("InvalidSBOTermSyntax", 10308),
  ("InvalidMetaidSyntax", 10309),
  ("InvalidIdSyntax", 10310),
  ("InvalidUnitIdSyntax", 10311),
  ("InvalidNameSyntax", 10312),
  ("MissingAnnotationNamespace", 10401),
  ("DuplicateAnnotationNamespaces", 10402),
  ("SedNamespaceInAnnotation", 10403),
  ("MultipleAnnotations", 10404),
  ("InconsistentArgUnits", 10501),
  ("InconsistentKineticLawUnitsL3", 10503),
  ("AssignRuleCompartmentMismatch", 10511),
  ("AssignRuleSpeciesMismatch", 10512),
  ("AssignRuleParameterMismatch", 10513),
  ("AssignRuleStoichiometryMismatch", 10514),
  ("InitAssignCompartmenMismatch", 10521),
  ("InitAssignSpeciesMismatch", 10522),
  ("InitAssignParameterMismatch", 10523),
  ("InitAssignStoichiometryMismatch", 10524),
  ("RateRuleCompartmentMismatch", 10531),
  ("RateRuleSpeciesMismatch", 10532),
  ("RateRuleParameterMismatch", 10533),
  ("RateRuleStoichiometryMismatch", 10534),
  ("KineticLawNotSubstancePerTime", 10541),
  ("SpeciesInvalidExtentUnits", 10542),
  ("DelayUnitsNotTime", 10551),
  ("EventAssignCompartmentMismatch", 10561),
  ("EventAssignSpeciesMismatch", 10562),
  ("EventAssignParameterMismatch", 10563),
  ("EventAssignStoichiometryMismatch", 10564),
  ("PriorityUnitsNotDimensionless", 10565),
  ("UpperUnitBound", 10599),
  ("OverdeterminedSystem", 10601),
  ("InvalidModelSBOTerm", 10701),
  ("InvalidFunctionDefSBOTerm", 10702),
  ("InvalidParameterSBOTerm", 10703),
  ("InvalidInitAssignSBOTerm", 10704),
  ("InvalidRuleSBOTerm", 10705),
  ("InvalidConstraintSBOTerm", 10706),
  ("InvalidReactionSBOTerm", 10707),
  ("InvalidSpeciesReferenceSBOTerm", 10708),
  ("InvalidKineticLawSBOTerm", 10709),
  ("InvalidEventSBOTerm", 10710),
  ("InvalidEventAssignmentSBOTerm", 10711),
  ("InvalidCompartmentSBOTerm", 10712),
  ("InvalidSpeciesSBOTerm", 10713),
  ("InvalidCompartmentTypeSBOTerm", 10714),
  ("InvalidSpeciesTypeSBOTerm", 10715),
  ("InvalidTriggerSBOTerm", 10716),
  ("InvalidDelaySBOTerm", 10717),
  ("NotesNotInXHTMLNamespace", 10801),
  ("NotesContainsXMLDecl", 10802),
  ("NotesContainsDOCTYPE", 10803),
  ("InvalidNotesContent", 10804),
  ("OnlyOneNotesElementAllowed", 10805),
  ("InvalidNamespaceOnSed", 20101),
  ("MissingOrInconsistentLevel", 20102),
  ("MissingOrInconsistentVersion", 20103),
  ("PackageNSMustMatch", 20104),
  ("LevelPositiveInteger", 20105),
  ("VersionPositiveInteger", 20106),
  ("AllowedAttributesOnSed", 20108),
  ("L3PackageOnLowerSed", 20109),
  ("MissingModel", 20201),
  ("IncorrectOrderInModel", 20202),
  ("EmptyListElement", 20203),
  ("NeedCompartmentIfHaveSpecies", 20204),
  ("OneOfEachListOf", 20205),
  ("OnlyFuncDefsInListOfFuncDefs", 20206),
  ("OnlyUnitDefsInListOfUnitDefs", 20207),
  ("OnlyCompartmentsInListOfCompartments", 20208),
  ("OnlySpeciesInListOfSpecies", 20209),
  ("OnlyParametersInListOfParameters", 20210),
  ("OnlyInitAssignsInListOfInitAssigns", 20211),
  ("OnlyRulesInListOfRules", 20212),
  ("OnlyConstraintsInListOfConstraints", 20213),
  ("OnlyReactionsInListOfReactions", 20214),
  ("OnlyEventsInListOfEvents", 20215),
  ("L3ConversionFactorOnModel", 20216),
  ("L3TimeUnitsOnModel", 20217),
  ("L3VolumeUnitsOnModel", 20218),
  ("L3AreaUnitsOnModel", 20219),
  ("L3LengthUnitsOnModel", 20220),
  ("L3ExtentUnitsOnModel", 20221),
  ("AllowedAttributesOnModel", 20222),
  ("AllowedAttributesOnListOfFuncs", 20223),
  ("AllowedAttributesOnListOfUnitDefs", 20224),
  ("AllowedAttributesOnListOfComps", 20225),
  ("AllowedAttributesOnListOfSpecies", 20226),
  ("AllowedAttributesOnListOfParams", 20227),
  ("AllowedAttributesOnListOfInitAssign", 20228),
  ("AllowedAttributesOnListOfRules", 20229),
  ("AllowedAttributesOnListOfConstraints", 20230),
  ("AllowedAttributesOnListOfReactions", 20231),
  ("AllowedAttributesOnListOfEvents", 20232),
  ("FunctionDefMathNotLambda", 20301),
  ("InvalidApplyCiInLambda", 20302),
  ("RecursiveFunctionDefinition", 20303),
  ("InvalidCiInLambda", 20304),
  ("InvalidFunctionDefReturnType", 20305),
  ("OneMathElementPerFunc", 20306),
  ("AllowedAttributesOnFunc", 20307),
  ("InvalidUnitDefId", 20401),
  ("InvalidSubstanceRedefinition", 20402),
  ("InvalidLengthRedefinition", 20403),
  ("InvalidAreaRedefinition", 20404),
  ("InvalidTimeRedefinition", 20405),
  ("InvalidVolumeRedefinition", 20406),
  ("VolumeLitreDefExponentNotOne", 20407),
  ("VolumeMetreDefExponentNot3", 20408),
  ("EmptyListOfUnits", 20409),
  ("InvalidUnitKind", 20410),
  ("OffsetNoLongerValid", 20411),
  ("CelsiusNoLongerValid", 20412),
  ("EmptyUnitListElement", 20413),
  ("OneListOfUnitsPerUnitDef", 20414),
  ("OnlyUnitsInListOfUnits", 20415),
  ("AllowedAttributesOnUnitDefinition", 20419),
  ("AllowedAttributesOnListOfUnits", 20420),
  ("AllowedAttributesOnUnit", 20421),
  ("ZeroDimensionalCompartmentSize", 20501),
  ("ZeroDimensionalCompartmentUnits", 20502),
  ("ZeroDimensionalCompartmentConst", 20503),
  ("UndefinedOutsideCompartment", 20504),
  ("RecursiveCompartmentContainment", 20505),
  ("ZeroDCompartmentContainment", 20506),
  ("Invalid1DCompartmentUnits", 20507),
  ("Invalid2DCompartmentUnits", 20508),
  ("Invalid3DCompartmentUnits", 20509),
  ("InvalidCompartmentTypeRef", 20510),
  ("OneDimensionalCompartmentUnits", 20511),
  ("TwoDimensionalCompartmentUnits", 20512),
  ("ThreeDimensionalCompartmentUnits", 20513),
  ("AllowedAttributesOnCompartment", 20517),
  ("NoUnitsOnCompartment", 20518),
  ("InvalidSpeciesCompartmentRef", 20601),
  ("HasOnlySubsNoSpatialUnits", 20602),
  ("NoSpatialUnitsInZeroD", 20603),
  ("NoConcentrationInZeroD", 20604),
  ("SpatialUnitsInOneD", 20605),
  ("SpatialUnitsInTwoD", 20606),
  ("SpatialUnitsInThreeD", 20607),
  ("InvalidSpeciesSusbstanceUnits", 20608),
  ("BothAmountAndConcentrationSet", 20609),
  ("NonBoundarySpeciesAssignedAndUsed", 20610),
  ("NonConstantSpeciesUsed", 20611),
  ("InvalidSpeciesTypeRef", 20612),
  ("MultSpeciesSameTypeInCompartment", 20613),
  ("MissingSpeciesCompartment", 20614),
  ("SpatialSizeUnitsRemoved", 20615),
  ("SubstanceUnitsOnSpecies", 20616),
  ("ConversionFactorOnSpecies", 20617),
  ("AllowedAttributesOnSpecies", 20623),
  ("InvalidParameterUnits", 20701),
  ("ParameterUnits", 20702),
  ("ConversionFactorMustConstant", 20705),
  ("AllowedAttributesOnParameter", 20706),
  ("InvalidInitAssignSymbol", 20801),
  ("MultipleInitAssignments", 20802),
  ("InitAssignmentAndRuleForSameId", 20803),
  ("OneMathElementPerInitialAssign", 20804),
  ("AllowedAttributesOnInitialAssign", 20805),
  ("InvalidAssignRuleVariable", 20901),
  ("InvalidRateRuleVariable", 20902),
  ("AssignmentToConstantEntity", 20903),
  ("RateRuleForConstantEntity", 20904),
  ("RepeatedRule10304", 20905),
  ("CircularRuleDependency", 20906),
  ("OneMathElementPerRule", 20907),
  ("AllowedAttributesOnAssignRule", 20908),
  ("AllowedAttributesOnRateRule", 20909),
  ("AllowedAttributesOnAlgRule", 20910),
  ("ConstraintMathNotBoolean", 21001),
  ("IncorrectOrderInConstraint", 21002),
  ("ConstraintNotInXHTMLNamespace", 21003),
  ("ConstraintContainsXMLDecl", 21004),
  ("ConstraintContainsDOCTYPE", 21005),
  ("InvalidConstraintContent", 21006),
  ("OneMathElementPerConstraint", 21007),
  ("OneMessageElementPerConstraint", 21008),
  ("AllowedAttributesOnConstraint", 21009),
  ("NoReactantsOrProducts", 21101),
  ("IncorrectOrderInReaction", 21102),
  ("EmptyListInReaction", 21103),
  ("InvalidReactantsProductsList", 21104),
  ("InvalidModifiersList", 21105),
  ("OneSubElementPerReaction", 21106),
  ("CompartmentOnReaction", 21107),
  ("AllowedAttributesOnReaction", 21110),
  ("InvalidSpeciesReference", 21111),
  ("RepeatedRule20611", 21112),
  ("BothStoichiometryAndMath", 21113),
  ("AllowedAttributesOnSpeciesReference", 21116),
  ("AllowedAttributesOnModifier", 21117),
  ("UndeclaredSpeciesRef", 21121),
  ("IncorrectOrderInKineticLaw", 21122),
  ("EmptyListInKineticLaw", 21123),
  ("NonConstantLocalParameter", 21124),
  ("SubsUnitsNoLongerValid", 21125),
  ("TimeUnitsNoLongerValid", 21126),
  ("OneListOfPerKineticLaw", 21127),
  ("OnlyLocalParamsInListOfLocalParams", 21128),
  ("AllowedAttributesOnListOfLocalParam", 21129),
  ("OneMathPerKineticLaw", 21130),
  ("UndeclaredSpeciesInStoichMath", 21131),
  ("AllowedAttributesOnKineticLaw", 21132),
  ("AllowedAttributesOnListOfSpeciesRef", 21150),
  ("AllowedAttributesOnListOfMods", 21151),
  ("AllowedAttributesOnLocalParameter", 21172),
  ("MissingTriggerInEvent", 21201),
  ("TriggerMathNotBoolean", 21202),
  ("MissingEventAssignment", 21203),
  ("TimeUnitsEvent", 21204),
  ("IncorrectOrderInEvent", 21205),
  ("ValuesFromTriggerTimeNeedDelay", 21206),
  ("DelayNeedsValuesFromTriggerTime", 21207),
  ("OneMathPerTrigger", 21209),
  ("OneMathPerDelay", 21210),
  ("InvalidEventAssignmentVariable", 21211),
  ("EventAssignmentForConstantEntity", 21212),
  ("OneMathPerEventAssignment", 21213),
  ("AllowedAttributesOnEventAssignment", 21214),
  ("OnlyOneDelayPerEvent", 21221),
  ("OneListOfEventAssignmentsPerEvent", 21222),
  ("OnlyEventAssignInListOfEventAssign", 21223),
  ("AllowedAttributesOnListOfEventAssign", 21224),
  ("AllowedAttributesOnEvent", 21225),
  ("AllowedAttributesOnTrigger", 21226),
  ("AllowedAttributesOnDelay", 21227),
  ("PersistentNotBoolean", 21228),
  ("InitialValueNotBoolean", 21229),
  ("OnlyOnePriorityPerEvent", 21230),
  ("OneMathPerPriority", 21231),
  ("AllowedAttributesOnPriority", 21232),
  ("GeneralWarningNotSpecified", 29999),
  ("CompartmentShouldHaveSize", 80501),
  ("SpeciesShouldHaveValue", 80601),
  ("ParameterShouldHaveUnits", 80701),
  ("LocalParameterShadowsId", 81121),
  ("LibSedAdditionalCodesLowerBound", 90000),
  ("CannotConvertToL1V1", 90001),
  ("NoEventsInL1", 91001),
  ("NoFunctionDefinitionsInL1", 91002),
  ("NoConstraintsInL1", 91003),
  ("NoInitialAssignmentsInL1", 91004),
  ("NoSpeciesTypesInL1", 91005),
  ("NoCompartmentTypeInL1", 91006),
  ("NoNon3DCompartmentsInL1", 91007),
  ("NoFancyStoichiometryMathInL1", 91008),
  ("NoNonIntegerStoichiometryInL1", 91009),
  ("NoUnitMultipliersOrOffsetsInL1", 91010),
  ("SpeciesCompartmentRequiredInL1", 91011),
  ("NoSpeciesSpatialSizeUnitsInL1", 91012),
  ("NoSBOTermsInL1", 91013),
  ("StrictUnitsRequiredInL1", 91014),
  ("ConversionFactorNotInL1", 91015),
  ("CompartmentNotOnL1Reaction", 91016),
  ("ExtentUnitsNotSubstance", 91017),
  ("GlobalUnitsNotDeclared", 91018),
  ("HasOnlySubstanceUnitsNotinL1", 91019),
  ("AvogadroNotSupported", 91020),
  ("NoConstraintsInL2v1", 92001),
  ("NoInitialAssignmentsInL2v1", 92002),
  ("NoSpeciesTypeInL2v1", 92003),
  ("NoCompartmentTypeInL2v1", 92004),
  ("NoSBOTermsInL2v1", 92005),
  ("NoIdOnSpeciesReferenceInL2v1", 92006),
  ("NoDelayedEventAssignmentInL2v1", 92007),
  ("StrictUnitsRequiredInL2v1", 92008),
  ("IntegerSpatialDimensions", 92009),
  ("StoichiometryMathNotYetSupported", 92010),
  ("PriorityLostFromL3", 92011),
  ("NonPersistentNotSupported", 92012),
  ("InitialValueFalseEventNotSupported", 92013),
  ("SBOTermNotUniversalInL2v2", 93001),
  ("NoUnitOffsetInL2v2", 93002),
  ("NoKineticLawTimeUnitsInL2v2", 93003),
  ("NoKineticLawSubstanceUnitsInL2v2", 93004),
  ("NoDelayedEventAssignmentInL2v2", 93005),
  ("ModelSBOBranchChangedBeyondL2v2", 93006),
  ("StrictUnitsRequiredInL2v2", 93007),
  ("StrictSBORequiredInL2v2", 93008),
  ("DuplicateAnnotationInvalidInL2v2", 93009),
  ("NoUnitOffsetInL2v3", 94001),
  ("NoKineticLawTimeUnitsInL2v3", 94002),
  ("NoKineticLawSubstanceUnitsInL2v3", 94003),
  ("NoSpeciesSpatialSizeUnitsInL2v3", 94004),
  ("NoEventTimeUnitsInL2v3", 94005),
  ("NoDelayedEventAssignmentInL2v3", 94006),
  ("ModelSBOBranchChangedBeyondL2v3", 94007),
  ("StrictUnitsRequiredInL2v3", 94008),
  ("StrictSBORequiredInL2v3", 94009),
  ("DuplicateAnnotationInvalidInL2v3", 94010),
  ("NoUnitOffsetInL2v4", 95001),
  ("NoKineticLawTimeUnitsInL2v4", 95002),
  ("NoKineticLawSubstanceUnitsInL2v4", 95003),
  ("NoSpeciesSpatialSizeUnitsInL2v4", 95004),
  ("NoEventTimeUnitsInL2v4", 95005),
  ("ModelSBOBranchChangedInL2v4", 95006),
  ("DuplicateAnnotationInvalidInL2v4", 95007),
  ("NoSpeciesTypeInL3v1", 96001),
  ("NoCompartmentTypeInL3v1", 96002),
  ("NoUnitOffsetInL3v1", 96003),
  ("NoKineticLawTimeUnitsInL3v1", 96004),
  ("NoKineticLawSubstanceUnitsInL3v1", 96005),
  ("NoSpeciesSpatialSizeUnitsInL3v1", 96006),
  ("NoEventTimeUnitsInL3v1", 96007),
  ("ModelSBOBranchChangedInL3v1", 96008),
  ("DuplicateAnnotationInvalidInL3v1", 96009),
  ("NoCompartmentOutsideInL3v1", 96010),
  ("NoStoichiometryMathInL3v1", 96011),
  ("InvalidSedLevelVersion", 99101),
  ("AnnotationNotesNotAllowedLevel1", 99104),
  ("InvalidRuleOrdering", 99106),
  ("RequiredPackagePresent", 99107),
  ("UnrequiredPackagePresent", 99108),
  ("PackageRequiredShouldBeFalse", 99109),
  ("SubsUnitsAllowedInKL", 99127),
  ("TimeUnitsAllowedInKL", 99128),
  ("FormulaInLevel1KL", 99129),
  ("L3SubstanceUnitsOnModel", 99130),
  ("TimeUnitsRemoved", 99206),
  ("BadMathML", 99219),
  ("FailedMathMLReadOfDouble", 99220),
  ("FailedMathMLReadOfInteger", 99221),
  ("FailedMathMLReadOfExponential", 99222),
  ("FailedMathMLReadOfRational", 99223),
  ("BadMathMLNodeType", 99224),
  ("NoTimeSymbolInFunctionDef", 99301),
  ("NoBodyInFunctionDef", 99302),
  ("DanglingUnitSIdRef", 99303),
  ("RDFMissingAboutTag", 99401),
  ("RDFEmptyAboutTag", 99402),
  ("RDFAboutTagNotMetaid", 99403),
  ("RDFNotCompleteModelHistory", 99404),
  ("RDFNotModelHistory", 99405),
  ("AnnotationNotElement", 99406),
  ("InconsistentArgUnitsWarnings", 99502),
  ("InconsistentPowerUnitsWarnings", 99503),
  ("InconsistentExponUnitsWarnings", 99504),
  ("UndeclaredUnits", 99505),
  ("UndeclaredTimeUnitsL3", 99506),
  ("UndeclaredExtentUnitsL3", 99507),
  ("UndeclaredObjectUnitsL3", 99508),
  ("UnrecognisedSBOTerm", 99701),
  ("ObseleteSBOTerm", 99702),
  ("IncorrectCompartmentSpatialDimensions", 99901),
  ("CompartmentTypeNotValidAttribute", 99902),
  ("ConstantNotValidAttribute", 99903),
  ("MetaIdNotValidAttribute", 99904),
  ("SBOTermNotValidAttributeBeforeL2V3", 99905),
  ("InvalidL1CompartmentUnits", 99906),
  ("L1V1CompartmentVolumeReqd", 99907),
  ("CompartmentTypeNotValidComponent", 99908),
  ("ConstraintNotValidComponent", 99909),
  ("EventNotValidComponent", 99910),
  ("SBOTermNotValidAttributeBeforeL2V2", 99911),
  ("FuncDefNotValidComponent", 99912),
  ("InitialAssignNotValidComponent", 99913),
  ("VariableNotValidAttribute", 99914),
  ("UnitsNotValidAttribute", 99915),
  ("ConstantSpeciesNotValidAttribute", 99916),
  ("SpatialSizeUnitsNotValidAttribute", 99917),
  ("SpeciesTypeNotValidAttribute", 99918),
  ("HasOnlySubsUnitsNotValidAttribute", 99919),
  ("IdNotValidAttribute", 99920),
  ("NameNotValidAttribute", 99921),
  ("SpeciesTypeNotValidComponent", 99922),
  ("StoichiometryMathNotValidComponent", 99923),
  ("MultiplierNotValidAttribute", 99924),
  ("OffsetNotValidAttribute", 99925),
  ("L3SpatialDimensionsUnset", 99926),
  ("UnknownCoreAttribute", 99994),
  ("UnknownPackageAttribute", 99995),
  ("PackageConversionNotSupported", 99996),
  ("InvalidTargetLevelVersion", 99997),
  ("L3NotSupported", 99998),
  ("SedCodesUpperBound", 99999)
]

/-- Length of a dereferenced address list. -/
theorem derefList_length {α : Type} [Inhabited α] (heap : List α) (ps : List Addr) :
    (derefList heap ps).length = ps.length := by
  simp [derefList]

/-- Dereferencing valid addresses is unaffected by growing the store. -/
theorem derefList_append_of_lt {α : Type} [Inhabited α] (heap ext : List α)
    (ps : List Addr) (h : ∀ p ∈ ps, p < heap.length) :
    derefList (heap ++ ext) ps = derefList heap ps := by
  unfold derefList
  apply List.map_congr_left
  intro p hp
  rw [List.getElem?_append_left (h p hp)]

/-- Dereferencing the freshly appended block by its own address range yields
exactly the appended values. -/
theorem derefList_append_range' {α : Type} [Inhabited α] (heap ext : List α) :
    derefList (heap ++ ext) (List.range' heap.length ext.length) = ext := by
  induction ext generalizing heap with
  | nil => simp [derefList]
  | cons v tail ih =>
    rw [List.length_cons, List.range'_succ]
    unfold derefList
    rw [List.map_cons]
    have hhead : ((heap ++ v :: tail)[heap.length]?).getD default = v := by
      rw [List.getElem?_append_right (Nat.le_refl _)]
      simp
    rw [hhead]
    have h2 := ih (heap ++ [v])
    unfold derefList at h2
    rw [List.length_append, List.length_cons, List.length_nil, List.append_assoc,
      List.singleton_append] at h2
    rw [h2]

/-- Dereferencing is unaffected by a store write at a different address. -/
theorem derefList_set_ne {α : Type} [Inhabited α] (heap : List α) (ps : List Addr)
    (q : Addr) (v : α) (h : ∀ p ∈ ps, q ≠ p) :
    derefList (heap.set q v) ps = derefList heap ps := by
  unfold derefList
  apply List.map_congr_left
  intro p hp
  rw [List.getElem?_set_ne (h p hp)]

/-- Closed form of copyItems on valid source addresses: the store grows by
the dereferenced values and the fresh addresses are the contiguous range
starting at the old store size. -/
theorem copyItems_eq {α : Type} [Inhabited α] (heap : List α) (ps : List Addr)
    (h : ∀ p ∈ ps, p < heap.length) :
    copyItems heap ps =
      (heap ++ derefList heap ps, List.range' heap.length ps.length) := by
  induction ps generalizing heap with
  | nil => simp [copyItems, derefList]
  | cons p rest ih =>
    have hp : p < heap.length := h p (List.mem_cons_self p rest)
    have hrest : ∀ q ∈ rest, q < (heap ++ [(heap[p]?).getD default]).length := by
      intro q hq
      have hq2 := h q (List.mem_cons_of_mem p hq)
      have hlen : (heap ++ [(heap[p]?).getD default]).length = heap.length + 1 := by
        simp
      rw [hlen]
      exact Nat.lt_succ_of_lt hq2
    simp only [copyItems]
    rw [ih _ hrest]
    rw [derefList_append_of_lt heap [(heap[p]?).getD default] rest
      (fun q hq => h q (List.mem_cons_of_mem p hq))]
    unfold derefList
    rw [List.map_cons]
    rw [List.length_append, List.length_cons, List.length_nil, List.length_cons,
      List.range'_succ, List.append_assoc, List.singleton_append]

/-- Observable value sequence of the mVariable collection of a
SedComputeChange. -/
def viewVars (w : World) (cc : SedComputeChange) : List SedVariable :=
  derefList w.vars cc.mVariable.items

/-- Observable value sequence of the mParameter collection. -/
def viewPars (w : World) (cc : SedComputeChange) : List SedParameter :=
  derefList w.pars cc.mParameter.items

/-- Observable math value of a SedComputeChange (none when unset). -/
def viewMath (w : World) (cc : SedComputeChange) : Option ASTNode :=
  cc.mMath.map fun p => (w.maths[p]?).getD default

/-- Complete observable state of a SedComputeChange: both child value
sequences and the optional math value. -/
def viewCC (w : World) (cc : SedComputeChange) :
    List SedVariable × List SedParameter × Option ASTNode :=
  (viewVars w cc, viewPars w cc, viewMath w cc)

/-- Observable value sequence of the mCurve collection of a SedPlot2D. -/
def viewCurves (w : World) (pl : SedPlot2D) : List SedCurve :=
  derefList w.curves pl.mCurve.items

/-- Well-formedness of a SedComputeChange in a world: every owned address
points into the corresponding store. -/
def wfCC (w : World) (cc : SedComputeChange) : Bool :=
  cc.mVariable.items.all (fun p => decide (p < w.vars.length)) &&
  cc.mParameter.items.all (fun p => decide (p < w.pars.length)) &&
  (match cc.mMath with
   | none => true
   | some p => decide (p < w.maths.length))

/-- Well-formedness of a SedPlot2D in a world. -/
def wfPlot (w : World) (pl : SedPlot2D) : Bool :=
  pl.mCurve.items.all fun p => decide (p < w.curves.length)

/-- Mutation of the variable store at one address. -/
def writeVarAt (w : World) (q : Addr) (v : SedVariable) : World :=
  { w with vars := w.vars.set q v }

/-- Mutation of the parameter store at one address. -/
def writeParAt (w : World) (q : Addr) (v : SedParameter) : World :=
  { w with pars := w.pars.set q v }

/-- Mutation of the curve store at one address. -/
def writeCurveAt (w : World) (q : Addr) (v : SedCurve) : World :=
  { w with curves := w.curves.set q v }

/-- Mutation of the math store at one address. -/
def writeMathAt (w : World) (q : Addr) (m : ASTNode) : World :=
  { w with maths := w.maths.set q m }

/-- Unpacking of wfCC into propositional bounds. -/
theorem wfCC_iff (w : World) (cc : SedComputeChange) :
    wfCC w cc = true ↔
      (∀ p ∈ cc.mVariable.items, p < w.vars.length) ∧
      (∀ p ∈ cc.mParameter.items, p < w.pars.length) ∧
      (∀ p, cc.mMath = some p → p < w.maths.length) := by
  unfold wfCC
  cases hm : cc.mMath with
  | none =>
    simp [List.all_eq_true]
  | some p =>
    simp [List.all_eq_true]
    exact and_assoc

/-- Unpacking of wfPlot. -/
theorem wfPlot_iff (w : World) (pl : SedPlot2D) :
    wfPlot w pl = true ↔ ∀ p ∈ pl.mCurve.items, p < w.curves.length := by
  unfold wfPlot
  simp [List.all_eq_true]

/-- The object produced by the deep-copying constructor body of
SedComputeChange, expressed in closed form. -/
def cloneImageCC (w : World) (cc : SedComputeChange) : SedComputeChange :=
  { base := cc.base
    mVariable := { items := List.range' w.vars.length cc.mVariable.items.length
                   parent := some w.ccs.length }
    mParameter := { items := List.range' w.pars.length cc.mParameter.items.length
                    parent := some w.ccs.length }
    mMath := cc.mMath.map fun _ => w.maths.length }

/-- Closed form of SedComputeChange.copyFrom on a well-formed source. -/
theorem copyFrom_eq (w : World) (cc : SedComputeChange)
    (hv : ∀ p ∈ cc.mVariable.items, p < w.vars.length)
    (hp : ∀ p ∈ cc.mParameter.items, p < w.pars.length) :
    SedComputeChange.copyFrom w cc =
      ({ w with
          vars := w.vars ++ viewVars w cc
          pars := w.pars ++ viewPars w cc
          maths := w.maths ++ (match cc.mMath with
                    | none => []
                    | some p => [(w.maths[p]?).getD default])
          ccs := w.ccs ++ [cloneImageCC w cc] }, w.ccs.length) := by
  unfold SedComputeChange.copyFrom cloneImageCC SedComputeChange.connectToChild
  rw [copyItems_eq _ _ hv, copyItems_eq _ _ hp]
  cases hm : cc.mMath with
  | none => simp [copyMath, hm, viewVars, viewPars]
  | some p => simp [copyMath, hm, viewVars, viewPars]

/-- The object produced by the deep-copying constructor body of SedPlot2D,
expressed in closed form. -/
def cloneImagePlot (w : World) (pl : SedPlot2D) : SedPlot2D :=
  { base := pl.base
    mCurve := { items := List.range' w.curves.length pl.mCurve.items.length
                parent := some w.plots.length } }

/-- Closed form of SedPlot2D.copyFrom on a well-formed source. -/
theorem plotCopyFrom_eq (w : World) (pl : SedPlot2D)
    (hc : ∀ p ∈ pl.mCurve.items, p < w.curves.length) :
    SedPlot2D.copyFrom w pl =
      ({ w with
          curves := w.curves ++ viewCurves w pl
          plots := w.plots ++ [cloneImagePlot w pl] }, w.plots.length) := by
  unfold SedPlot2D.copyFrom cloneImagePlot SedPlot2D.connectToChild
  rw [copyItems_eq _ _ hc]
  simp [viewCurves]

/-- Full specification of the deep-copying constructor body of
SedComputeChange: the fresh object is structurally equal to the source, the
source view is untouched, the owned addresses are disjoint from the source
ones, mutations through the fresh addresses do not change the source view,
and the child collections are connected to the fresh object. -/
theorem cloneCC_spec (w : World) (cc : SedComputeChange) (w2 : World) (a : Addr)
    (hwf : wfCC w cc = true)
    (heq : SedComputeChange.copyFrom w cc = (w2, a)) :
    ∃ cc2, w2.ccs[a]? = some cc2 ∧
      viewCC w2 cc2 = viewCC w cc ∧
      viewCC w2 cc = viewCC w cc ∧
      (∀ q ∈ cc2.mVariable.items, q ∉ cc.mVariable.items) ∧
      (∀ q ∈ cc2.mParameter.items, q ∉ cc.mParameter.items) ∧
      (∀ q, cc2.mMath = some q → cc.mMath ≠ some q) ∧
      (∀ q ∈ cc2.mVariable.items, ∀ v, viewCC (writeVarAt w2 q v) cc = viewCC w2 cc) ∧
      (∀ q ∈ cc2.mParameter.items, ∀ v, viewCC (writeParAt w2 q v) cc = viewCC w2 cc) ∧
      (∀ q, cc2.mMath = some q → ∀ m, viewCC (writeMathAt w2 q m) cc = viewCC w2 cc) ∧
      cc2.mVariable.parent = some a ∧ cc2.mParameter.parent = some a ∧
      cc2.base = cc.base := by
  obtain ⟨hv, hp, hm⟩ := (wfCC_iff w cc).mp hwf
  rw [copyFrom_eq w cc hv hp, Prod.mk.injEq] at heq
  obtain ⟨rfl, rfl⟩ := heq
  refine ⟨cloneImageCC w cc, ?_, ?_, ?_, ?_, ?_, ?_, ?_, ?_, ?_, ?_, ?_, ?_⟩
  · simp [cloneImageCC, List.getElem?_concat_length]
  · simp only [viewCC, Prod.mk.injEq]
    refine ⟨?_, ?_, ?_⟩
    · show derefList (w.vars ++ viewVars w cc)
        (List.range' w.vars.length cc.mVariable.items.length) = viewVars w cc
      have hl : cc.mVariable.items.length = (viewVars w cc).length := by
        simp [viewVars, derefList_length]
      rw [hl]
      exact derefList_append_range' _ _
    · show derefList (w.pars ++ viewPars w cc)
        (List.range' w.pars.length cc.mParameter.items.length) = viewPars w cc
      have hl : cc.mParameter.items.length = (viewPars w cc).length := by
        simp [viewPars, derefList_length]
      rw [hl]
      exact derefList_append_range' _ _
    · cases hm2 : cc.mMath with
      | none => simp [viewMath, cloneImageCC, hm2]
      | some p =>
        simp [viewMath, cloneImageCC, hm2, List.getElem?_concat_length]
  · simp only [viewCC, Prod.mk.injEq]
    refine ⟨?_, ?_, ?_⟩
    · exact derefList_append_of_lt _ _ _ hv
    · exact derefList_append_of_lt _ _ _ hp
    · cases hm2 : cc.mMath with
      | none => simp [viewMath, hm2]
      | some p =>
        simp only [viewMath, hm2, Option.map_some']
        rw [List.getElem?_append_left (hm p hm2)]
  · intro q hq hmem
    have h1 := (List.mem_range'_1.mp hq).1
    have h2 := hv q hmem
    exact absurd h2 (Nat.not_lt.mpr h1)
  · intro q hq hmem
    have h1 := (List.mem_range'_1.mp hq).1
    have h2 := hp q hmem
    exact absurd h2 (Nat.not_lt.mpr h1)
  · intro q hq hcontra
    have hlt : q < w.maths.length := hm q hcontra
    simp only [cloneImageCC, hcontra, Option.map_some', Option.some.injEq] at hq
    rw [← hq] at hlt
    exact Nat.lt_irrefl _ hlt
  · intro q hq v
    have hge : w.vars.length ≤ q := (List.mem_range'_1.mp hq).1
    simp only [viewCC, Prod.mk.injEq, writeVarAt]
    refine ⟨?_, rfl, rfl⟩
    show derefList ((w.vars ++ viewVars w cc).set q v) cc.mVariable.items =
      derefList (w.vars ++ viewVars w cc) cc.mVariable.items
    apply derefList_set_ne
    intro p hpmem
    exact Ne.symm (Nat.ne_of_lt (Nat.lt_of_lt_of_le (hv p hpmem) hge))
  · intro q hq v
    have hge : w.pars.length ≤ q := (List.mem_range'_1.mp hq).1
    simp only [viewCC, Prod.mk.injEq, writeParAt]
    refine ⟨rfl, ?_, rfl⟩
    show derefList ((w.pars ++ viewPars w cc).set q v) cc.mParameter.items =
      derefList (w.pars ++ viewPars w cc) cc.mParameter.items
    apply derefList_set_ne
    intro p hpmem
    exact Ne.symm (Nat.ne_of_lt (Nat.lt_of_lt_of_le (hp p hpmem) hge))
  · intro q hq m
    cases hm2 : cc.mMath with
    | none => simp [cloneImageCC, hm2] at hq
    | some p =>
      simp only [cloneImageCC, hm2, Option.map_some', Option.some.injEq] at hq
      simp only [viewCC, Prod.mk.injEq, writeMathAt]
      refine ⟨rfl, rfl, ?_⟩
      simp only [viewMath, hm2, Option.map_some', Option.some.injEq]
      have hpq : p < q := by
        rw [← hq]
        exact hm p hm2
      rw [List.getElem?_set_ne (Ne.symm (Nat.ne_of_lt hpq))]
  · simp [cloneImageCC]
  · simp [cloneImageCC]
  · simp [cloneImageCC]

/-- Full specification of the deep-copying constructor body of SedPlot2D. -/
theorem clonePlot_spec (w : World) (pl : SedPlot2D) (w2 : World) (a : Addr)
    (hwf : wfPlot w pl = true)
    (heq : SedPlot2D.copyFrom w pl = (w2, a)) :
    ∃ pl2, w2.plots[a]? = some pl2 ∧
      viewCurves w2 pl2 = viewCurves w pl ∧
      viewCurves w2 pl = viewCurves w pl ∧
      (∀ q ∈ pl2.mCurve.items, q ∉ pl.mCurve.items) ∧
      (∀ q ∈ pl2.mCurve.items, ∀ v, viewCurves (writeCurveAt w2 q v) pl = viewCurves w2 pl) ∧
      pl2.mCurve.parent = some a ∧
      pl2.base = pl.base := by
  have hc := (wfPlot_iff w pl).mp hwf
  rw [plotCopyFrom_eq w pl hc, Prod.mk.injEq] at heq
  obtain ⟨rfl, rfl⟩ := heq
  refine ⟨cloneImagePlot w pl, ?_, ?_, ?_, ?_, ?_, ?_, ?_⟩
  · simp [cloneImagePlot, List.getElem?_concat_length]
  · show derefList (w.curves ++ viewCurves w pl)
      (List.range' w.curves.length pl.mCurve.items.length) = viewCurves w pl
    have hl : pl.mCurve.items.length = (viewCurves w pl).length := by
      simp [viewCurves, derefList_length]
    rw [hl]
    exact derefList_append_range' _ _
  · exact derefList_append_of_lt _ _ _ hc
  · intro q hq hmem
    have h1 := (List.mem_range'_1.mp hq).1
    have h2 := hc q hmem
    exact absurd h2 (Nat.not_lt.mpr h1)
  · intro q hq v
    have hge : w.curves.length ≤ q := (List.mem_range'_1.mp hq).1
    show derefList ((w.curves ++ viewCurves w pl).set q v) pl.mCurve.items =
      derefList (w.curves ++ viewCurves w pl) pl.mCurve.items
    apply derefList_set_ne
    intro p hpmem
    exact Ne.symm (Nat.ne_of_lt (Nat.lt_of_lt_of_le (hc p hpmem) hge))
  · simp [cloneImagePlot]
  · simp [cloneImagePlot]

/-- Concrete world used by the witness instantiations. -/
def sampleWorld : World :=
  { vars := [{ sid := "v0" }, { sid := "v1" }]
    pars := [{ sid := "p0" }]
    curves := [{ sid := "c0" }]
    maths := [{ payload := 7, wellFormed := true }, { payload := 8, wellFormed := false }]
    ccs := []
    plots := [] }

/-- Concrete SedComputeChange used by the witness instantiations: two
variables, one parameter, math set to the well-formed tree at address 0. -/
def sampleCC : SedComputeChange :=
  { base := { level := 1, version := 2 }
    mVariable := { items := [0, 1], parent := none }
    mParameter := { items := [0], parent := none }
    mMath := some 0 }

/-- Concrete SedPlot2D used by the witness instantiations. -/
def samplePlot : SedPlot2D :=
  { base := { level := 1, version := 2 }
    mCurve := { items := [0], parent := none } }

/-- C1: for every well-formed SedComputeChange and SedPlot2D, clone returns a
new object that is structurally equal to the source (same child value
sequences in the same order, equal math value or both absent) but
independently owned: the owned child addresses and the math address are fresh
and disjoint from the source ones, and mutating the clone children or math
through those addresses leaves the source view unchanged. -/
theorem claim_C1 :
    (∀ (w : World) (cc : SedComputeChange) (w2 : World) (a : Addr),
      wfCC w cc = true →
      SedComputeChange.clone w cc = (w2, a) →
      ∃ cc2, w2.ccs[a]? = some cc2 ∧
        viewCC w2 cc2 = viewCC w cc ∧
        viewCC w2 cc = viewCC w cc ∧
        (∀ q ∈ cc2.mVariable.items, q ∉ cc.mVariable.items) ∧
        (∀ q ∈ cc2.mParameter.items, q ∉ cc.mParameter.items) ∧
        (∀ q, cc2.mMath = some q → cc.mMath ≠ some q) ∧
        (∀ q ∈ cc2.mVariable.items, ∀ v, viewCC (writeVarAt w2 q v) cc = viewCC w2 cc) ∧
        (∀ q ∈ cc2.mParameter.items, ∀ v, viewCC (writeParAt w2 q v) cc = viewCC w2 cc) ∧
        (∀ q, cc2.mMath = some q → ∀ m, viewCC (writeMathAt w2 q m) cc = viewCC w2 cc)) ∧
    (∀ (w : World) (pl : SedPlot2D) (w2 : World) (a : Addr),
      wfPlot w pl = true →
      SedPlot2D.clone w pl = (w2, a) →
      ∃ pl2, w2.plots[a]? = some pl2 ∧
        viewCurves w2 pl2 = viewCurves w pl ∧
        viewCurves w2 pl = viewCurves w pl ∧
        (∀ q ∈ pl2.mCurve.items, q ∉ pl.mCurve.items) ∧
        (∀ q ∈ pl2.mCurve.items, ∀ v,
          viewCurves (writeCurveAt w2 q v) pl = viewCurves w2 pl)) := by
  constructor
  · intro w cc w2 a hwf heq
    obtain ⟨cc2, h1, h2, h3, h4, h5, h6, h7, h8, h9, _⟩ :=
      cloneCC_spec w cc w2 a hwf heq
    exact ⟨cc2, h1, h2, h3, h4, h5, h6, h7, h8, h9⟩
  · intro w pl w2 a hwf heq
    obtain ⟨pl2, h1, h2, h3, h4, h5, _⟩ := clonePlot_spec w pl w2 a hwf heq
    exact ⟨pl2, h1, h2, h3, h4, h5⟩

/-- Witness for C1: the hypotheses hold and the conclusion is realized at a
concrete world, compute change and plot. -/
theorem claim_C1_witness :
    wfCC sampleWorld sampleCC = true ∧
    wfPlot sampleWorld samplePlot = true ∧
    (∃ cc2, (SedComputeChange.clone sampleWorld sampleCC).1.ccs[
        (SedComputeChange.clone sampleWorld sampleCC).2]? = some cc2 ∧
      viewCC (SedComputeChange.clone sampleWorld sampleCC).1 cc2 =
        viewCC sampleWorld sampleCC) ∧
    (∃ pl2, (SedPlot2D.clone sampleWorld samplePlot).1.plots[
        (SedPlot2D.clone sampleWorld samplePlot).2]? = some pl2 ∧
      viewCurves (SedPlot2D.clone sampleWorld samplePlot).1 pl2 =
        viewCurves sampleWorld samplePlot) := by
  refine ⟨by decide, by decide, ?_, ?_⟩
  · obtain ⟨cc2, h1, h2, _⟩ :=
      claim_C1.1 sampleWorld sampleCC _ _ (by decide) rfl
    exact ⟨cc2, h1, h2⟩
  · obtain ⟨pl2, h1, h2, _⟩ :=
      claim_C1.2 sampleWorld samplePlot _ _ (by decide) rfl
    exact ⟨pl2, h1, h2⟩

/-- Dereferencing distributes over list append. -/
theorem derefList_append_lists {α : Type} [Inhabited α] (heap : List α)
    (ps qs : List Addr) :
    derefList heap (ps ++ qs) = derefList heap ps ++ derefList heap qs := by
  simp [derefList]

/-- C2: each add operation rejects a null argument with
LIBSEDML_INVALID_ATTRIBUTE_VALUE leaving world and object (hence size)
unchanged, and on a non-null argument returns LIBSEDML_OPERATION_SUCCESS,
increases the size by exactly one and appends a copy of the argument value at
the end, leaving the other owned state unchanged. -/
theorem claim_C2 :
    (∀ (w : World) (cc : SedComputeChange),
      SedComputeChange.addVariable w cc none =
        (w, cc, LIBSEDML_INVALID_ATTRIBUTE_VALUE)) ∧
    (∀ (w : World) (cc : SedComputeChange),
      SedComputeChange.addParameter w cc none =
        (w, cc, LIBSEDML_INVALID_ATTRIBUTE_VALUE)) ∧
    (∀ (w : World) (pl : SedPlot2D),
      SedPlot2D.addCurve w pl none =
        (w, pl, LIBSEDML_INVALID_ATTRIBUTE_VALUE)) ∧
    (∀ (w : World) (cc : SedComputeChange) (p : Addr) (w2 : World)
        (cc2 : SedComputeChange) (r : Int),
      wfCC w cc = true →
      SedComputeChange.addVariable w cc (some p) = (w2, cc2, r) →
      r = LIBSEDML_OPERATION_SUCCESS ∧
      SedComputeChange.getNumVariables cc2 =
        SedComputeChange.getNumVariables cc + 1 ∧
      viewVars w2 cc2 = viewVars w cc ++ [(w.vars[p]?).getD default] ∧
      viewPars w2 cc2 = viewPars w cc ∧
      viewMath w2 cc2 = viewMath w cc) ∧
    (∀ (w : World) (cc : SedComputeChange) (p : Addr) (w2 : World)
        (cc2 : SedComputeChange) (r : Int),
      wfCC w cc = true →
      SedComputeChange.addParameter w cc (some p) = (w2, cc2, r) →
      r = LIBSEDML_OPERATION_SUCCESS ∧
      SedComputeChange.getNumParameters cc2 =
        SedComputeChange.getNumParameters cc + 1 ∧
      viewPars w2 cc2 = viewPars w cc ++ [(w.pars[p]?).getD default] ∧
      viewVars w2 cc2 = viewVars w cc ∧
      viewMath w2 cc2 = viewMath w cc) ∧
    (∀ (w : World) (pl : SedPlot2D) (p : Addr) (w2 : World)
        (pl2 : SedPlot2D) (r : Int),
      wfPlot w pl = true →
      SedPlot2D.addCurve w pl (some p) = (w2, pl2, r) →
      r = LIBSEDML_OPERATION_SUCCESS ∧
      SedPlot2D.getNumCurves pl2 = SedPlot2D.getNumCurves pl + 1 ∧
      viewCurves w2 pl2 = viewCurves w pl ++ [(w.curves[p]?).getD default]) := by
  refine ⟨fun w cc => rfl, fun w cc => rfl, fun w pl => rfl, ?_, ?_, ?_⟩
  · intro w cc p w2 cc2 r hwf heq
    obtain ⟨hv, hp, hm⟩ := (wfCC_iff w cc).mp hwf
    simp only [SedComputeChange.addVariable, SedListOfVariables.append,
      Prod.mk.injEq] at heq
    obtain ⟨rfl, rfl, rfl⟩ := heq
    refine ⟨rfl, ?_, ?_, rfl, rfl⟩
    · simp [SedComputeChange.getNumVariables]
    · show derefList (w.vars ++ [(w.vars[p]?).getD default])
        (cc.mVariable.items ++ [w.vars.length]) = viewVars w cc ++ _
      rw [derefList_append_lists, derefList_append_of_lt _ _ _ hv]
      congr 1
      simp [derefList, List.getElem?_concat_length]
  · intro w cc p w2 cc2 r hwf heq
    obtain ⟨hv, hp, hm⟩ := (wfCC_iff w cc).mp hwf
    simp only [SedComputeChange.addParameter, SedListOfParameters.append,
      Prod.mk.injEq] at heq
    obtain ⟨rfl, rfl, rfl⟩ := heq
    refine ⟨rfl, ?_, ?_, rfl, rfl⟩
    · simp [SedComputeChange.getNumParameters]
    · show derefList (w.pars ++ [(w.pars[p]?).getD default])
        (cc.mParameter.items ++ [w.pars.length]) = viewPars w cc ++ _
      rw [derefList_append_lists, derefList_append_of_lt _ _ _ hp]
      congr 1
      simp [derefList, List.getElem?_concat_length]
  · intro w pl p w2 pl2 r hwf heq
    have hc := (wfPlot_iff w pl).mp hwf
    simp only [SedPlot2D.addCurve, SedListOfCurves.append, Prod.mk.injEq] at heq
    obtain ⟨rfl, rfl, rfl⟩ := heq
    refine ⟨rfl, ?_, ?_⟩
    · simp [SedPlot2D.getNumCurves]
    · show derefList (w.curves ++ [(w.curves[p]?).getD default])
        (pl.mCurve.items ++ [w.curves.length]) = viewCurves w pl ++ _
      rw [derefList_append_lists, derefList_append_of_lt _ _ _ hc]
      congr 1
      simp [derefList, List.getElem?_concat_length]

/-- Witness for C2: the non-null add on concrete inputs succeeds and grows
the size by one; the null add is the exact sentinel triple. -/
theorem claim_C2_witness :
    wfCC sampleWorld sampleCC = true ∧
    (SedComputeChange.addVariable sampleWorld sampleCC (some 0)).2.2 =
      LIBSEDML_OPERATION_SUCCESS ∧
    SedComputeChange.getNumVariables
      (SedComputeChange.addVariable sampleWorld sampleCC (some 0)).2.1 =
      SedComputeChange.getNumVariables sampleCC + 1 ∧
    SedComputeChange.addVariable sampleWorld sampleCC none =
      (sampleWorld, sampleCC, LIBSEDML_INVALID_ATTRIBUTE_VALUE) := by
  obtain ⟨h1, h2, _⟩ :=
    claim_C2.2.2.2.1 sampleWorld sampleCC 0 _ _ _ (by decide) rfl
  exact ⟨by decide, h1, h2, claim_C2.1 sampleWorld sampleCC⟩

/-- C3: setMath on a non-null tree that is not pointer-identical to the
stored one and is not well-formed returns LIBSEDML_INVALID_OBJECT and leaves
the world and the object completely unchanged, so isSetMath, getMath and the
observable math value are the same before and after. -/
theorem claim_C3 :
    ∀ (w : World) (cc : SedComputeChange) (p : Addr),
      cc.mMath ≠ some p →
      ((w.maths[p]?).getD default).wellFormed = false →
      SedComputeChange.setMath w cc (some p) = (w, cc, LIBSEDML_INVALID_OBJECT) ∧
      (SedComputeChange.setMath w cc (some p)).2.1.isSetMath = cc.isSetMath ∧
      (SedComputeChange.setMath w cc (some p)).2.1.getMath = cc.getMath ∧
      viewMath (SedComputeChange.setMath w cc (some p)).1
        (SedComputeChange.setMath w cc (some p)).2.1 = viewMath w cc := by
  intro w cc p hne hwff
  have h : SedComputeChange.setMath w cc (some p) =
      (w, cc, LIBSEDML_INVALID_OBJECT) := by
    unfold SedComputeChange.setMath
    rw [if_neg hne]
    exact if_pos hwff
  refine ⟨h, ?_, ?_, ?_⟩
  · rw [h]
  · rw [h]
  · rw [h]

/-- Witness for C3: the address-1 tree of the sample world is ill-formed and
differs from the stored math pointer, and setMath rejects it leaving the
state unchanged. -/
theorem claim_C3_witness :
    sampleCC.mMath ≠ some 1 ∧
    ((sampleWorld.maths[1]?).getD default).wellFormed = false ∧
    SedComputeChange.setMath sampleWorld sampleCC (some 1) =
      (sampleWorld, sampleCC, LIBSEDML_INVALID_OBJECT) := by
  refine ⟨by decide, by decide, ?_⟩
  exact (claim_C3 sampleWorld sampleCC 1 (by decide) (by decide)).1

/-- Recognizer for the listOfVariables wrapper token. -/
def isVarWrapper : XMLNode → Bool
  | XMLNode.listOfVariables _ => true
  | _ => false

/-- Recognizer for the listOfParameters wrapper token. -/
def isParWrapper : XMLNode → Bool
  | XMLNode.listOfParameters _ => true
  | _ => false

/-- Recognizer for the listOfCurves wrapper token. -/
def isCurveWrapper : XMLNode → Bool
  | XMLNode.listOfCurves _ => true
  | _ => false

/-- Recognizer for the MathML token. -/
def isMathNode : XMLNode → Bool
  | XMLNode.mathML _ => true
  | _ => false

/-- Number of tokens satisfying a recognizer in an output stream. -/
def countTok (p : XMLNode → Bool) (out : List XMLNode) : Nat :=
  (out.filter p).length

/-- C4: writeElements emits the superclass output as a prefix; each owned
collection contributes its wrapper exactly when it is non-empty (an empty
collection contributes no wrapper token at all); when all parts are present
the order is superclass output, listOfVariables, listOfParameters, MathML;
and the MathML token is last whenever the math is set.  The SedPlot2D part
states the same for the single listOfCurves collection. -/
theorem claim_C4 :
    (∀ (w : World) (cc : SedComputeChange) (superOut : List XMLNode),
      superOut <+: SedComputeChange.writeElements w cc superOut) ∧
    (∀ (w : World) (cc : SedComputeChange) (superOut : List XMLNode),
      countTok isVarWrapper (SedComputeChange.writeElements w cc superOut) =
        countTok isVarWrapper superOut +
          (if 0 < SedComputeChange.getNumVariables cc then 1 else 0)) ∧
    (∀ (w : World) (cc : SedComputeChange) (superOut : List XMLNode),
      countTok isParWrapper (SedComputeChange.writeElements w cc superOut) =
        countTok isParWrapper superOut +
          (if 0 < SedComputeChange.getNumParameters cc then 1 else 0)) ∧
    (∀ (w : World) (cc : SedComputeChange) (superOut : List XMLNode),
      countTok isMathNode (SedComputeChange.writeElements w cc superOut) =
        countTok isMathNode superOut +
          (if SedComputeChange.isSetMath cc then 1 else 0)) ∧
    (∀ (w : World) (cc : SedComputeChange) (superOut : List XMLNode),
      SedComputeChange.isSetMath cc = true →
      ∃ m, (SedComputeChange.writeElements w cc superOut).getLast? =
        some (XMLNode.mathML m)) ∧
    (∀ (w : World) (cc : SedComputeChange) (superOut : List XMLNode),
      0 < SedComputeChange.getNumVariables cc →
      0 < SedComputeChange.getNumParameters cc →
      SedComputeChange.isSetMath cc = true →
      SedComputeChange.writeElements w cc superOut =
        superOut ++
          [XMLNode.listOfVariables (viewVars w cc),
           XMLNode.listOfParameters (viewPars w cc),
           XMLNode.mathML ((cc.mMath.map fun p => (w.maths[p]?).getD default).getD
             default)]) ∧
    (∀ (w : World) (pl : SedPlot2D) (superOut : List XMLNode),
      superOut <+: SedPlot2D.writeElements w pl superOut) ∧
    (∀ (w : World) (pl : SedPlot2D) (superOut : List XMLNode),
      countTok isCurveWrapper (SedPlot2D.writeElements w pl superOut) =
        countTok isCurveWrapper superOut +
          (if 0 < SedPlot2D.getNumCurves pl then 1 else 0)) ∧
    (∀ (w : World) (pl : SedPlot2D) (superOut : List XMLNode),
      0 < SedPlot2D.getNumCurves pl →
      SedPlot2D.writeElements w pl superOut =
        superOut ++ [XMLNode.listOfCurves (viewCurves w pl)]) := by
  refine ⟨?_, ?_, ?_, ?_, ?_, ?_, ?_, ?_, ?_⟩
  · intro w cc superOut
    unfold SedComputeChange.writeElements
    rw [List.append_assoc, List.append_assoc]
    exact List.prefix_append _ _
  · intro w cc superOut
    unfold SedComputeChange.writeElements countTok
    split_ifs <;>
      simp [List.filter_append, isVarWrapper, SedListOfVariables.write,
        SedListOfParameters.write]
  · intro w cc superOut
    unfold SedComputeChange.writeElements countTok
    split_ifs <;>
      simp [List.filter_append, isParWrapper, SedListOfVariables.write,
        SedListOfParameters.write]
  · intro w cc superOut
    unfold SedComputeChange.writeElements countTok
    split_ifs <;>
      simp [List.filter_append, isMathNode, SedListOfVariables.write,
        SedListOfParameters.write]
  · intro w cc superOut hset
    refine ⟨(cc.mMath.map fun p => (w.maths[p]?).getD default).getD default, ?_⟩
    unfold SedComputeChange.writeElements
    rw [if_pos hset]
    exact List.getLast?_concat _
  · intro w cc superOut h1 h2 h3
    unfold SedComputeChange.writeElements
    rw [if_pos h1, if_pos h2, if_pos h3]
    simp [SedListOfVariables.write, SedListOfParameters.write, viewVars, viewPars]
  · intro w pl superOut
    unfold SedPlot2D.writeElements
    exact List.prefix_append _ _
  · intro w pl superOut
    unfold SedPlot2D.writeElements countTok
    split_ifs <;> simp [List.filter_append, isCurveWrapper, SedListOfCurves.write]
  · intro w pl superOut h1
    unfold SedPlot2D.writeElements
    rw [if_pos h1]
    simp [SedListOfCurves.write, viewCurves]

/-- Witness for C4: the fully populated sample compute change serializes as
superclass output, variables wrapper, parameters wrapper, MathML, and the
sample plot as superclass output followed by the curves wrapper. -/
theorem claim_C4_witness :
    0 < SedComputeChange.getNumVariables sampleCC ∧
    0 < SedComputeChange.getNumParameters sampleCC ∧
    SedComputeChange.isSetMath sampleCC = true ∧
    0 < SedPlot2D.getNumCurves samplePlot ∧
    SedComputeChange.writeElements sampleWorld sampleCC [XMLNode.other "sup"] =
      [XMLNode.other "sup"] ++
        [XMLNode.listOfVariables (viewVars sampleWorld sampleCC),
         XMLNode.listOfParameters (viewPars sampleWorld sampleCC),
         XMLNode.mathML ((sampleCC.mMath.map fun p =>
           (sampleWorld.maths[p]?).getD default).getD default)] ∧
    SedPlot2D.writeElements sampleWorld samplePlot [] =
      [] ++ [XMLNode.listOfCurves (viewCurves sampleWorld samplePlot)] := by
  refine ⟨by decide, by decide, by decide, by decide, ?_, ?_⟩
  · exact claim_C4.2.2.2.2.2.1 sampleWorld sampleCC [XMLNode.other "sup"]
      (by decide) (by decide) (by decide)
  · exact claim_C4.2.2.2.2.2.2.2.2 sampleWorld samplePlot [] (by decide)

/-- C5: every modelled C-linkage facade function returns its documented
sentinel on a null handle without any out-of-band failure: count accessors
return SEDML_INT_MAX, result-code functions return the reserved
invalid-object code (LIBSEDML_INVALID_OBJECT for the math functions,
LIBSBML_INVALID_OBJECT for the add functions), boolean accessors return 0,
and pointer-returning functions return NULL, always leaving the world
unchanged. -/
theorem claim_C5 :
    (∀ w : World, SedComputeChange_getNumVariables w none = SEDML_INT_MAX) ∧
    (∀ w : World, SedComputeChange_getNumParameters w none = SEDML_INT_MAX) ∧
    (∀ w : World, SedPlot2D_getNumCurves w none = SEDML_INT_MAX) ∧
    (∀ (w : World) (m : Option Addr),
      SedComputeChange_setMath w none m = (w, LIBSEDML_INVALID_OBJECT)) ∧
    (∀ w : World, SedComputeChange_unsetMath w none = (w, LIBSEDML_INVALID_OBJECT)) ∧
    (∀ (w : World) (sv : Option Addr),
      SedComputeChange_addVariable w none sv = (w, LIBSBML_INVALID_OBJECT)) ∧
    (∀ (w : World) (sp : Option Addr),
      SedComputeChange_addParameter w none sp = (w, LIBSBML_INVALID_OBJECT)) ∧
    (∀ (w : World) (sc : Option Addr),
      SedPlot2D_addCurve w none sc = (w, LIBSBML_INVALID_OBJECT)) ∧
    (∀ w : World, SedComputeChange_isSetMath w none = 0) ∧
    (∀ (baseHas : SedChange → Bool) (w : World),
      SedComputeChange_hasRequiredAttributes baseHas w none = 0) ∧
    (∀ (baseHas : SedChange → Bool) (w : World),
      SedComputeChange_hasRequiredElements baseHas w none = 0) ∧
    (∀ (baseHas : SedOutput → Bool) (w : World),
      SedPlot2D_hasRequiredAttributes baseHas w none = 0) ∧
    (∀ (baseHas : SedOutput → Bool) (w : World),
      SedPlot2D_hasRequiredElements baseHas w none = 0) ∧
    (∀ w : World, SedComputeChange_clone w none = (w, none)) ∧
    (∀ w : World, SedComputeChange_getMath w none = none) ∧
    (∀ w : World, SedComputeChange_createVariable w none = (w, none)) ∧
    (∀ w : World, SedComputeChange_getSedListOfVariables w none = none) ∧
    (∀ (w : World) (n : Nat), SedComputeChange_getVariable w none n = none) ∧
    (∀ (w : World) (sid : String),
      SedComputeChange_getVariableById w none sid = none) ∧
    (∀ (w : World) (n : Nat),
      SedComputeChange_removeVariable w none n = (w, none)) ∧
    (∀ w : World, SedComputeChange_createParameter w none = (w, none)) ∧
    (∀ w : World, SedComputeChange_getSedListOfParameters w none = none) ∧
    (∀ (w : World) (n : Nat), SedComputeChange_getParameter w none n = none) ∧
    (∀ (w : World) (sid : String),
      SedComputeChange_getParameterById w none sid = none) ∧
    (∀ (w : World) (n : Nat),
      SedComputeChange_removeParameter w none n = (w, none)) ∧
    (∀ w : World, SedPlot2D_clone w none = (w, none)) ∧
    (∀ w : World, SedPlot2D_createCurve w none = (w, none)) ∧
    (∀ w : World, SedPlot2D_getSedListOfCurves w none = none) ∧
    (∀ (w : World) (n : Nat), SedPlot2D_getCurve w none n = none) ∧
    (∀ (w : World) (sid : String), SedPlot2D_getCurveById w none sid = none) ∧
    (∀ (w : World) (n : Nat), SedPlot2D_removeCurve w none n = (w, none)) := by
  exact ⟨fun w => rfl, fun w => rfl, fun w => rfl, fun w m => rfl, fun w => rfl,
    fun w sv => rfl, fun w sp => rfl, fun w sc => rfl, fun w => rfl,
    fun b w => rfl, fun b w => rfl, fun b w => rfl, fun b w => rfl,
    fun w => rfl, fun w => rfl, fun w => rfl, fun w => rfl, fun w n => rfl,
    fun w sid => rfl, fun w n => rfl, fun w => rfl, fun w => rfl,
    fun w n => rfl, fun w sid => rfl, fun w n => rfl, fun w => rfl,
    fun w => rfl, fun w => rfl, fun w n => rfl, fun w sid => rfl,
    fun w n => rfl⟩

/-- C6: the copy constructors and assignment operators of SedComputeChange
and SedPlot2D fail fast with a SedConstructorException on a null source,
leaving the world untouched, and on a non-null source deep-copy every owned
child collection and the math tree into fresh, disjoint storage. -/
theorem claim_C6 :
    (∀ w : World, SedComputeChange.copyCtor w none =
      (w, Except.error { message := "Null argument to copy constructor" })) ∧
    (∀ (w : World) (self : Addr), SedComputeChange.operatorAssign w self none =
      (w, Except.error { message := "Null argument to assignment" })) ∧
    (∀ w : World, SedPlot2D.copyCtor w none =
      (w, Except.error { message := "Null argument to copy constructor" })) ∧
    (∀ (w : World) (self : Addr), SedPlot2D.operatorAssign w self none =
      (w, Except.error { message := "Null argument to assignment" })) ∧
    (∀ (w : World) (cc : SedComputeChange) (w2 : World)
        (r : Except SedConstructorException Addr),
      wfCC w cc = true →
      SedComputeChange.copyCtor w (some cc) = (w2, r) →
      ∃ a cc2, r = Except.ok a ∧ w2.ccs[a]? = some cc2 ∧
        viewCC w2 cc2 = viewCC w cc ∧
        (∀ q ∈ cc2.mVariable.items, q ∉ cc.mVariable.items) ∧
        (∀ q ∈ cc2.mParameter.items, q ∉ cc.mParameter.items) ∧
        (∀ q, cc2.mMath = some q → cc.mMath ≠ some q)) ∧
    (∀ (w : World) (pl : SedPlot2D) (w2 : World)
        (r : Except SedConstructorException Addr),
      wfPlot w pl = true →
      SedPlot2D.copyCtor w (some pl) = (w2, r) →
      ∃ a pl2, r = Except.ok a ∧ w2.plots[a]? = some pl2 ∧
        viewCurves w2 pl2 = viewCurves w pl ∧
        (∀ q ∈ pl2.mCurve.items, q ∉ pl.mCurve.items)) := by
  refine ⟨fun w => rfl, fun w self => rfl, fun w => rfl, fun w self => rfl, ?_, ?_⟩
  · intro w cc w2 r hwf heq
    simp only [SedComputeChange.copyCtor, Prod.mk.injEq] at heq
    obtain ⟨rfl, rfl⟩ := heq
    obtain ⟨cc2, h1, h2, _, h4, h5, h6, _⟩ :=
      cloneCC_spec w cc _ _ hwf rfl
    exact ⟨(SedComputeChange.copyFrom w cc).2, cc2, rfl, h1, h2, h4, h5, h6⟩
  · intro w pl w2 r hwf heq
    simp only [SedPlot2D.copyCtor, Prod.mk.injEq] at heq
    obtain ⟨rfl, rfl⟩ := heq
    obtain ⟨pl2, h1, h2, _, h4, _⟩ := clonePlot_spec w pl _ _ hwf rfl
    exact ⟨(SedPlot2D.copyFrom w pl).2, pl2, rfl, h1, h2, h4⟩

/-- Witness for C6: the null source fails with the exception value, and the
non-null copy at concrete inputs yields a structurally equal fresh object. -/
theorem claim_C6_witness :
    wfCC sampleWorld sampleCC = true ∧
    SedComputeChange.copyCtor sampleWorld none =
      (sampleWorld,
        Except.error { message := "Null argument to copy constructor" }) ∧
    (∃ a cc2,
      (SedComputeChange.copyCtor sampleWorld (some sampleCC)).2 = Except.ok a ∧
      (SedComputeChange.copyCtor sampleWorld (some sampleCC)).1.ccs[a]? =
        some cc2 ∧
      viewCC (SedComputeChange.copyCtor sampleWorld (some sampleCC)).1 cc2 =
        viewCC sampleWorld sampleCC) := by
  refine ⟨by decide, claim_C6.1 sampleWorld, ?_⟩
  obtain ⟨a, cc2, h1, h2, h3, _⟩ :=
    claim_C6.2.2.2.2.1 sampleWorld sampleCC _ _ (by decide) rfl
  exact ⟨a, cc2, h1, h2, h3⟩

/-- C7: readOtherXML returns true exactly when the local recognition applies
(the peeked tag is math) or the superclass handler reports true; the two
flags are combined with OR and the superclass handler is always invoked (its
effect on the superclass state is present in the result even when the math
element was recognized locally); local recognition stores the tree produced
by the external MathML reader. -/
theorem claim_C7 :
    ∀ (superRead : SedChange → XMLInputStream → SedChange × Bool)
      (w : World) (cc : SedComputeChange) (s : XMLInputStream),
      (SedComputeChange.readOtherXML superRead w cc s).2.2 =
        (decide (s.peekName = "math") || (superRead cc.base s).2) ∧
      (SedComputeChange.readOtherXML superRead w cc s).2.1.base =
        (superRead cc.base s).1 ∧
      (s.peekName = "math" →
        viewMath (SedComputeChange.readOtherXML superRead w cc s).1
          (SedComputeChange.readOtherXML superRead w cc s).2.1 = s.mathResult) := by
  intro superRead w cc s
  by_cases hn : s.peekName = "math"
  · cases hm : s.mathResult with
    | none =>
      refine ⟨?_, ?_, ?_⟩ <;>
        simp [SedComputeChange.readOtherXML, hn, hm, viewMath]
    | some m =>
      refine ⟨?_, ?_, ?_⟩ <;>
        simp [SedComputeChange.readOtherXML, hn, hm, viewMath,
          List.getElem?_concat_length]
  · refine ⟨?_, ?_, ?_⟩ <;>
      simp [SedComputeChange.readOtherXML, hn, viewMath]

/-- Concrete input stream positioned at a math element. -/
def sampleStream : XMLInputStream :=
  { peekName := "math", mathResult := some { payload := 3, wellFormed := true } }

/-- Witness for C7: at a concrete stream peeking at math, the freshly read
tree is stored. -/
theorem claim_C7_witness :
    sampleStream.peekName = "math" ∧
    viewMath (SedComputeChange.readOtherXML (fun b _ => (b, false)) sampleWorld
        sampleCC sampleStream).1
      (SedComputeChange.readOtherXML (fun b _ => (b, false)) sampleWorld
        sampleCC sampleStream).2.1 = sampleStream.mathResult := by
  refine ⟨rfl, ?_⟩
  exact (claim_C7 (fun b _ => (b, false)) sampleWorld sampleCC sampleStream).2.2 rfl

/-- C8: after the level-version constructor, the copy constructor and a
proper assignment of SedComputeChange and SedPlot2D, every owned child
collection of the affected object carries a parent link to the containing
object itself, because connectToChild runs at the end of each operation;
self-assignment is a no-op that changes nothing. -/
theorem claim_C8 :
    (∀ (w : World) (level version : Nat) (w2 : World) (a : Addr),
      SedComputeChange.ctor w level version = (w2, a) →
      ∃ cc, w2.ccs[a]? = some cc ∧
        cc.mVariable.parent = some a ∧ cc.mParameter.parent = some a) ∧
    (∀ (w : World) (orig : SedComputeChange) (w2 : World) (a : Addr),
      SedComputeChange.copyCtor w (some orig) = (w2, Except.ok a) →
      ∃ cc, w2.ccs[a]? = some cc ∧
        cc.mVariable.parent = some a ∧ cc.mParameter.parent = some a) ∧
    (∀ (w : World) (self r : Addr) (w2 : World),
      r ≠ self → self < w.ccs.length →
      SedComputeChange.operatorAssign w self (some r) = (w2, Except.ok ()) →
      ∃ cc, w2.ccs[self]? = some cc ∧
        cc.mVariable.parent = some self ∧ cc.mParameter.parent = some self) ∧
    (∀ (w : World) (self : Addr),
      SedComputeChange.operatorAssign w self (some self) = (w, Except.ok ())) ∧
    (∀ (w : World) (level version : Nat) (w2 : World) (a : Addr),
      SedPlot2D.ctor w level version = (w2, a) →
      ∃ pl, w2.plots[a]? = some pl ∧ pl.mCurve.parent = some a) ∧
    (∀ (w : World) (orig : SedPlot2D) (w2 : World) (a : Addr),
      SedPlot2D.copyCtor w (some orig) = (w2, Except.ok a) →
      ∃ pl, w2.plots[a]? = some pl ∧ pl.mCurve.parent = some a) ∧
    (∀ (w : World) (self r : Addr) (w2 : World),
      r ≠ self → self < w.plots.length →
      SedPlot2D.operatorAssign w self (some r) = (w2, Except.ok ()) →
      ∃ pl, w2.plots[self]? = some pl ∧ pl.mCurve.parent = some self) ∧
    (∀ (w : World) (self : Addr),
      SedPlot2D.operatorAssign w self (some self) = (w, Except.ok ())) := by
  refine ⟨?_, ?_, ?_, ?_, ?_, ?_, ?_, ?_⟩
  · intro w level version w2 a heq
    simp only [SedComputeChange.ctor, SedComputeChange.connectToChild,
      Prod.mk.injEq] at heq
    obtain ⟨rfl, rfl⟩ := heq
    exact ⟨_, List.getElem?_concat_length _ _, rfl, rfl⟩
  · intro w orig w2 a heq
    simp only [SedComputeChange.copyCtor, Prod.mk.injEq, Except.ok.injEq] at heq
    obtain ⟨rfl, rfl⟩ := heq
    simp only [SedComputeChange.copyFrom, SedComputeChange.connectToChild]
    exact ⟨_, List.getElem?_concat_length _ _, rfl, rfl⟩
  · intro w self r w2 hne hlen heq
    simp only [SedComputeChange.operatorAssign, SedComputeChange.connectToChild,
      if_neg hne, Prod.mk.injEq] at heq
    obtain ⟨rfl, -⟩ := heq
    exact ⟨_, List.getElem?_set_self hlen, rfl, rfl⟩
  · intro w self
    simp [SedComputeChange.operatorAssign]
  · intro w level version w2 a heq
    simp only [SedPlot2D.ctor, SedPlot2D.connectToChild, Prod.mk.injEq] at heq
    obtain ⟨rfl, rfl⟩ := heq
    exact ⟨_, List.getElem?_concat_length _ _, rfl⟩
  · intro w orig w2 a heq
    simp only [SedPlot2D.copyCtor, Prod.mk.injEq, Except.ok.injEq] at heq
    obtain ⟨rfl, rfl⟩ := heq
    simp only [SedPlot2D.copyFrom, SedPlot2D.connectToChild]
    exact ⟨_, List.getElem?_concat_length _ _, rfl⟩
  · intro w self r w2 hne hlen heq
    simp only [SedPlot2D.operatorAssign, SedPlot2D.connectToChild,
      if_neg hne, Prod.mk.injEq] at heq
    obtain ⟨rfl, -⟩ := heq
    exact ⟨_, List.getElem?_set_self hlen, rfl⟩
  · intro w self
    simp [SedPlot2D.operatorAssign]

/-- World with two allocated compute change objects and one plot object,
used by the assignment witness. -/
def sampleWorld2 : World :=
  { sampleWorld with ccs := [sampleCC, sampleCC], plots := [samplePlot] }

/-- Witness for C8: parent links point at the containing object after the
constructor at a concrete input and after a proper assignment. -/
theorem claim_C8_witness :
    (∃ cc, (SedComputeChange.ctor sampleWorld 1 4).1.ccs[
        (SedComputeChange.ctor sampleWorld 1 4).2]? = some cc ∧
      cc.mVariable.parent = some (SedComputeChange.ctor sampleWorld 1 4).2 ∧
      cc.mParameter.parent = some (SedComputeChange.ctor sampleWorld 1 4).2) ∧
    (∃ cc, (SedComputeChange.operatorAssign sampleWorld2 0 (some 1)).1.ccs[0]? =
        some cc ∧
      cc.mVariable.parent = some 0 ∧ cc.mParameter.parent = some 0) := by
  constructor
  · exact claim_C8.1 sampleWorld 1 4 _ _ rfl
  · exact claim_C8.2.2.1 sampleWorld2 0 1 _ (by decide) (by decide) rfl

set_option maxRecDepth 4000 in
/-- C9: every enumerator of SedErrorCode_t lies in the band from 10000
(UnknownError, the first enumerator) to 99999 (SedCodesUpperBound, the last
enumerator) inclusive, hence strictly above all XML-layer codes; the
library-specific band starts at LibSedAdditionalCodesLowerBound = 90000:
every enumerator declared before it is below 90000 and every enumerator from
it on is at or above 90000. -/
theorem claim_C9 :
    (∀ c ∈ sedErrorCodeValues, 10000 ≤ c.2 ∧ c.2 ≤ 99999) ∧
    sedErrorCodeValues.length = 411 ∧
    sedErrorCodeValues[0]? = some ("UnknownError", 10000) ∧
    sedErrorCodeValues[410]? = some ("SedCodesUpperBound", 99999) ∧
    sedErrorCodeValues[272]? = some ("LibSedAdditionalCodesLowerBound", 90000) ∧
    ((sedErrorCodeValues.take 272).all fun c => decide (c.2 < 90000)) = true ∧
    ((sedErrorCodeValues.drop 272).all fun c => decide (90000 ≤ c.2)) = true := by
  refine ⟨by decide, rfl, rfl, rfl, rfl, by decide, by decide⟩

/-- C10: createVariable, createParameter and createCurve allocate a fresh
default-constructed element, transfer it into the collection by appendAndOwn
(size grows by one) and return the address of the stored element itself (the
last stored address is the returned one); by contrast the add operations
store a freshly allocated copy whose address differs from the argument. -/
theorem claim_C10 :
    (∀ (w : World) (cc : SedComputeChange) (w2 : World)
        (cc2 : SedComputeChange) (q : Addr),
      SedComputeChange.createVariable w cc = (w2, cc2, q) →
      cc2.mVariable.items = cc.mVariable.items ++ [q] ∧
      SedComputeChange.getNumVariables cc2 =
        SedComputeChange.getNumVariables cc + 1 ∧
      w2.vars[q]? = some default ∧
      cc2.mVariable.items.getLast? = some q) ∧
    (∀ (w : World) (cc : SedComputeChange) (w2 : World)
        (cc2 : SedComputeChange) (q : Addr),
      SedComputeChange.createParameter w cc = (w2, cc2, q) →
      cc2.mParameter.items = cc.mParameter.items ++ [q] ∧
      SedComputeChange.getNumParameters cc2 =
        SedComputeChange.getNumParameters cc + 1 ∧
      w2.pars[q]? = some default ∧
      cc2.mParameter.items.getLast? = some q) ∧
    (∀ (w : World) (pl : SedPlot2D) (w2 : World) (pl2 : SedPlot2D) (q : Addr),
      SedPlot2D.createCurve w pl = (w2, pl2, q) →
      pl2.mCurve.items = pl.mCurve.items ++ [q] ∧
      SedPlot2D.getNumCurves pl2 = SedPlot2D.getNumCurves pl + 1 ∧
      w2.curves[q]? = some default ∧
      pl2.mCurve.items.getLast? = some q) ∧
    (∀ (w : World) (cc : SedComputeChange) (p : Addr) (w2 : World)
        (cc2 : SedComputeChange) (r : Int),
      p < w.vars.length →
      SedComputeChange.addVariable w cc (some p) = (w2, cc2, r) →
      cc2.mVariable.items.getLast? = some w.vars.length ∧
      w.vars.length ≠ p) := by
  refine ⟨?_, ?_, ?_, ?_⟩
  · intro w cc w2 cc2 q heq
    simp only [SedComputeChange.createVariable, SedListOfVariables.appendAndOwn,
      Prod.mk.injEq] at heq
    obtain ⟨rfl, rfl, rfl⟩ := heq
    refine ⟨rfl, ?_, ?_, ?_⟩
    · simp [SedComputeChange.getNumVariables]
    · exact List.getElem?_concat_length _ _
    · exact List.getLast?_concat _
  · intro w cc w2 cc2 q heq
    simp only [SedComputeChange.createParameter, SedListOfParameters.appendAndOwn,
      Prod.mk.injEq] at heq
    obtain ⟨rfl, rfl, rfl⟩ := heq
    refine ⟨rfl, ?_, ?_, ?_⟩
    · simp [SedComputeChange.getNumParameters]
    · exact List.getElem?_concat_length _ _
    · exact List.getLast?_concat _
  · intro w pl w2 pl2 q heq
    simp only [SedPlot2D.createCurve, SedListOfCurves.appendAndOwn,
      Prod.mk.injEq] at heq
    obtain ⟨rfl, rfl, rfl⟩ := heq
    refine ⟨rfl, ?_, ?_, ?_⟩
    · simp [SedPlot2D.getNumCurves]
    · exact List.getElem?_concat_length _ _
    · exact List.getLast?_concat _
  · intro w cc p w2 cc2 r hlt heq
    simp only [SedComputeChange.addVariable, SedListOfVariables.append,
      Prod.mk.injEq] at heq
    obtain ⟨rfl, rfl, rfl⟩ := heq
    exact ⟨List.getLast?_concat _, Ne.symm (Nat.ne_of_lt hlt)⟩

/-- Witness for C10: createVariable on concrete inputs stores and returns the
same fresh address holding the default element, and addVariable on a valid
argument address stores a copy at a different address. -/
theorem claim_C10_witness :
    ((SedComputeChange.createVariable sampleWorld sampleCC).2.1.mVariable.items =
      sampleCC.mVariable.items ++
        [(SedComputeChange.createVariable sampleWorld sampleCC).2.2] ∧
     (SedComputeChange.createVariable sampleWorld sampleCC).1.vars[
       (SedComputeChange.createVariable sampleWorld sampleCC).2.2]? =
       some default) ∧
    ((0 : Addr) < sampleWorld.vars.length ∧
     sampleWorld.vars.length ≠ 0) := by
  constructor
  · obtain ⟨h1, _, h3, _⟩ :=
      claim_C10.1 sampleWorld sampleCC _ _ _ rfl
    exact ⟨h1, h3⟩
  · refine ⟨by decide, ?_⟩
    exact (claim_C10.2.2.2 sampleWorld sampleCC 0 _ _ _ (by decide) rfl).2
